import Mathlib

/-!
Verification development for the kubeview terminal dashboard (Go, single
`main.go` containing two program variants separated by a document marker at
line 1868, plus host/styling helper files).

The embedding below translates the navigation state machine, refresh loop,
message handlers (`Update`), the dashboard aggregator core, and the
percentage formatters of both variants into Lean.  Conventions:

* Go's `int`/`int64` are modelled as `Int` (no overflow is relevant to any
  claim; all arithmetic stays tiny).
* Go slice indexing `xs[i]` panics when out of bounds; it is modelled by
  `goIndex : List α → Int → Option α`, and every handler that can panic
  returns `Option` (`none` = runtime panic).
* Go maps built by insertion loops are modelled as association lists where a
  later insertion shadows an earlier one (`mapGet` reads the last binding).
* `tea.Cmd` values are modelled by the inductive `Cmd` naming the
  asynchronous call the command would issue; `tea.Batch` of viewport-internal
  commands is modelled as `Cmd.none` (the viewport is an external UI widget).
* lipgloss styling is an out-of-scope collaborator (spec section 1); style
  `Render` calls are modelled as the identity on the rendered text, and
  per-resource table rendering is abstracted to a constructor naming the
  screen being rendered (no claim inspects table text).
* Kubernetes API objects are compressed to the fields the program reads:
  names, namespaces, capacities and usage samples.
-/

namespace Kubeview

/-- Go slice indexing `xs[i]` for `i : int`; `none` models the runtime
out-of-range panic (negative index or index ≥ length). -/
def goIndex (l : List α) (i : Int) : Option α :=
  if i < 0 then none else l.get? i.toNat

/-- Read a Go map modelled as an association list built by successive
insertions: the *last* binding for a key wins. -/
def mapGet (l : List (String × β)) (k : String) : Option β :=
  (l.reverse.find? (fun p => p.1 = k)).map (·.2)

/-- A pod: the program reads only its namespace and name. -/
structure Pod where
  ns   : String
  name : String
deriving DecidableEq, Repr

/-- A node: name plus the capacity quantities the aggregator reads
(`node.Status.Capacity`), in CPU millicores and memory bytes. -/
structure Node where
  name        : String
  capCpuMilli : Int
  capMemBytes : Int
deriving DecidableEq, Repr

/-- A deployment; `replicas` models the `*int32` pointer field
`Spec.Replicas` (`none` = nil pointer). -/
structure Deployment where
  ns       : String
  name     : String
  replicas : Option Int
deriving DecidableEq, Repr

/-- A namespace object. -/
structure Namespace where
  name : String
deriving DecidableEq, Repr

/-- A persistent volume (cluster-scoped: no namespace). -/
structure PV where
  name : String
deriving DecidableEq, Repr

/-- Generic namespaced object (PVC, statefulset, daemonset, service,
network policy, event, alert): the handlers read only namespace and name. -/
structure KObj where
  ns   : String
  name : String
deriving DecidableEq, Repr

/-- Per-container usage sample inside a `PodMetrics` item. -/
structure ContainerMetrics where
  cpuMilli : Int
  memBytes : Int
deriving DecidableEq, Repr

/-- A pod metrics sample (`v1beta1.PodMetrics`): per-container usages. -/
structure PodMetrics where
  name       : String
  containers : List ContainerMetrics
deriving DecidableEq, Repr

/-- A node metrics sample (`v1beta1.NodeMetrics`). -/
structure NodeMetrics where
  name          : String
  usageCpuMilli : Int
  usageMemBytes : Int
deriving DecidableEq, Repr

/-- `totalPodCPU`: sums the CPU usage of all containers of a pod sample. -/
def totalPodCPU (pm : PodMetrics) : Int :=
  (pm.containers.map (·.cpuMilli)).sum

/-- `totalPodMemory`: sums the memory usage of all containers. -/
def totalPodMemory (pm : PodMetrics) : Int :=
  (pm.containers.map (·.memBytes)).sum

/-- A host disk usage entry (`diskUsageStat`; the float64 percent field is
display-only and not modelled). -/
structure DiskUsage where
  mountpoint : String
  total      : Int
  used       : Int
  free       : Int
deriving DecidableEq, Repr

/-- A resource quota (variant 2): name plus the `Status.Used` and
`Spec.Hard` maps, modelled as association lists of quantity strings (Go map
iteration order is unspecified; list order stands in for it — no claim
depends on the order). -/
structure ResourceQuota where
  name : String
  used : List (String × String)
  hard : List (String × String)
deriving DecidableEq, Repr

/-- One rendered line of the resource-quota table (`resourceQuotaLine`). -/
structure ResourceQuotaLine where
  name     : String
  resource : String
  usedQty  : String
  limitQty : String
deriving DecidableEq, Repr

/-- Payload of `dashboardMsg` (chart bar data, a display-only styling
artifact, is not modelled). -/
structure DashboardData where
  clusterCPUUsage    : String
  clusterMemoryUsage : String
  topPodsByCPU       : List Pod
  topPodsByMemory    : List Pod
  topNodesByCPU      : List Node
  topNodesByMemory   : List Node
deriving DecidableEq, Repr

/-- The asynchronous work a `tea.Cmd` returned by `Update` would issue.
`Cmd.none` models a nil command (including `tea.Batch` of viewport-internal
commands); `Cmd.doTick` is the refresh-timer reschedule. -/
inductive Cmd where
  | none
  | quit
  | doTick
  | getNodes
  | getPods            (ns : String)
  | getPVCs            (ns : String)
  | getPVs
  | getDeployments     (ns : String)
  | getStatefulSets    (ns : String)
  | getDaemonSets      (ns : String)
  | getServices        (ns : String)
  | getNetworkPolicies (ns : String)
  | getEvents          (ns : String)
  | getNamespaces
  | getAlerts          (ns : String)
  | getResourceQuotas  (ns : String)
  | getDashboardMetrics
  | getHostMetrics
  | getHostLogs        (logType : String)
  | getContainers
  | getContainerLogs   (container : String)
  | getLogs            (ns name : String)
  | getResourceYAML    (ns name kind : String)
  | deletePod          (ns name : String)
  | scaleDeployment    (ns name : String) (replicas : Int)
deriving DecidableEq, Repr

/-! ## Variant 1 (main.go lines 39–1867): the variant whose screen
transitions go through `setView`. -/

namespace V1

/-- `viewState` of variant 1 (main.go lines 43–66). -/
inductive ViewState where
  | nodes | pods | pvcs | pvs | deployments | statefulsets | daemonsets
  | services | networkPolicies | events | namespaces | details | logs
  | scaling | confirmDelete | yaml | dashboard | resourceMenu | help
  | hostDashboard | hostLogs | appLogs
deriving DecidableEq, Repr

/-- The variant-1 `model` (main.go lines 76–121).  The kube/metrics client
handles, the lipgloss `Styles` value and the barchart widgets are
capability/styling state with no bearing on any claim and are omitted; the
viewport widget is modelled by its content string; the bubbles textinput
widget by its value string.  `err : Option String` models the `error`
field (`none` = nil). -/
structure Model where
  view               : ViewState
  previousView       : ViewState
  nodes              : List Node
  nodeMetrics        : List (String × NodeMetrics)
  pods               : List Pod
  podMetrics         : List (String × PodMetrics)
  pvcs               : List KObj
  pvs                : List PV
  deployments        : List Deployment
  statefulsets       : List KObj
  daemonsets         : List KObj
  services           : List KObj
  netpols            : List KObj
  events             : List KObj
  namespaces         : List Namespace
  resourceTypes      : List String
  hostLogTypes       : List String
  selectedNamespace  : String
  details            : String
  yamlContent        : String
  clusterCPUUsage    : String
  clusterMemoryUsage : String
  topPodsByCPU       : List Pod
  topPodsByMemory    : List Pod
  topNodesByCPU      : List Node
  topNodesByMemory   : List Node
  cursor             : Int
  err                : Option String
  viewportContent    : String
  textInput          : String
  hostTabs           : List String
  activeHostTab      : Int
  hostDiskUsage      : List DiskUsage
  containers         : List String
  ready              : Bool
deriving DecidableEq, Repr

/-- The messages variant 1's `Update` handles (main.go lines 123–165;
`tea.WindowSizeMsg` is `windowSize`; metrics maps arrive pre-built, as in
the fetch closures). -/
inductive Msg where
  | windowSize         (width height : Int)
  | tick
  | nodesMsg           (nodes : List Node) (metrics : List (String × NodeMetrics))
  | podsMsg            (pods : List Pod) (metrics : List (String × PodMetrics))
  | pvcsMsg            (pvcs : List KObj)
  | pvsMsg             (pvs : List PV)
  | deploymentsMsg     (deployments : List Deployment)
  | statefulsetsMsg    (statefulsets : List KObj)
  | daemonsetsMsg      (daemonsets : List KObj)
  | servicesMsg        (services : List KObj)
  | networkPoliciesMsg (policies : List KObj)
  | eventsMsg          (events : List KObj)
  | namespacesMsg      (namespaces : List Namespace)
  | logsMsg            (logs : String)
  | hostMsg            (cpuUsage memoryUsage : Int) (diskUsage : List DiskUsage)
  | appLogsMsg         (containers : List String)
  | hostLogsMsg        (logs : String)
  | containerLogsMsg   (logs : String)
  | yamlMsg            (yaml : String)
  | dashboardMsg       (d : DashboardData)
  | scaleMsg
  | podDeletedMsg
  | errMsg             (e : String)
  | key                (k : String)
deriving DecidableEq, Repr

/-- `(m *model) setView` (main.go lines 167–171): records the prior screen,
switches, and resets the cursor to 0. -/
def setView (m : Model) (v : ViewState) : Model :=
  { m with previousView := m.view, view := v, cursor := 0 }

/-- Model of the external bubbles textinput widget's `Update`: printable
single-rune keys append, backspace deletes, everything else is ignored
(collaborator, out of scope; no claim reads the input value). -/
def textInputStep (t : String) (k : String) : String :=
  if k = "backspace" then t.dropRight 1
  else if k.length = 1 then t ++ k
  else t

/-- The cursor increment shared by every `down`/`j` branch:
`if m.cursor < len(list)-1 { m.cursor++ }`. -/
def bump (m : Model) (len : Nat) : Model :=
  if m.cursor < (len : Int) - 1 then { m with cursor := m.cursor + 1 } else m

/-- `formatNodeDetails` (abbreviated: detail text composition is
display-only; no claim inspects it beyond the selected object's name). -/
def formatNodeDetails (n : Node) : String := "Name: " ++ n.name

/-- `formatPodDetails` (abbreviated, as above). -/
def formatPodDetails (p : Pod) : String :=
  "Name: " ++ p.name ++ " Namespace: " ++ p.ns

/-- `formatPVCDetails` (abbreviated). -/
def formatPVCDetails (o : KObj) : String :=
  "Name: " ++ o.name ++ " Namespace: " ++ o.ns

/-- `formatPVDetails` (abbreviated). -/
def formatPVDetails (pv : PV) : String := "Name: " ++ pv.name

/-- `formatDeploymentDetails` (abbreviated). -/
def formatDeploymentDetails (d : Deployment) : String :=
  "Name: " ++ d.name ++ " Namespace: " ++ d.ns

/-- `formatStatefulSetDetails` (abbreviated). -/
def formatStatefulSetDetails (o : KObj) : String :=
  "Name: " ++ o.name ++ " Namespace: " ++ o.ns

/-- `formatDaemonSetDetails` (abbreviated). -/
def formatDaemonSetDetails (o : KObj) : String :=
  "Name: " ++ o.name ++ " Namespace: " ++ o.ns

/-- `formatServiceDetails` (abbreviated). -/
def formatServiceDetails (o : KObj) : String :=
  "Name: " ++ o.name ++ " Namespace: " ++ o.ns

/-- `formatNetworkPolicyDetails` (abbreviated). -/
def formatNetworkPolicyDetails (o : KObj) : String :=
  "Name: " ++ o.name ++ " Namespace: " ++ o.ns

/-- `formatEventDetails` (abbreviated). -/
def formatEventDetails (o : KObj) : String :=
  "Name: " ++ o.name ++ " Namespace: " ++ o.ns

/-- The `down`/`j` key branch of variant 1's `Update` (main.go lines
859–920).  On the host dashboard the active tab name is read by an
unguarded index, hence the `Option`. -/
def downKey (m : Model) : Option (Model × Cmd) :=
  match m.view with
  | .resourceMenu => some (bump m m.resourceTypes.length, Cmd.none)
  | .nodes => some (bump m m.nodes.length, Cmd.none)
  | .pods => some (bump m m.pods.length, Cmd.none)
  | .pvcs => some (bump m m.pvcs.length, Cmd.none)
  | .pvs => some (bump m m.pvs.length, Cmd.none)
  | .deployments => some (bump m m.deployments.length, Cmd.none)
  | .statefulsets => some (bump m m.statefulsets.length, Cmd.none)
  | .daemonsets => some (bump m m.daemonsets.length, Cmd.none)
  | .services => some (bump m m.services.length, Cmd.none)
  | .networkPolicies => some (bump m m.netpols.length, Cmd.none)
  | .events => some (bump m m.events.length, Cmd.none)
  | .namespaces => some (bump m m.namespaces.length, Cmd.none)
  | .hostDashboard => do
      let tab ← goIndex m.hostTabs m.activeHostTab
      if tab = "System Logs" then pure (bump m m.hostLogTypes.length, Cmd.none)
      else if tab = "Application Logs" then pure (bump m m.containers.length, Cmd.none)
      else pure (m, Cmd.none)
  | _ => some (m, Cmd.none)

/-- The `d` (details) key branch (main.go lines 935–958): each list screen
indexes its list at the cursor with **no length guard**, then `setView`
switches to the details screen unconditionally. -/
def dKey (m : Model) : Option (Model × Cmd) := do
  let m1 ←
    match m.view with
    | .nodes => (goIndex m.nodes m.cursor).map (fun n => { m with details := formatNodeDetails n })
    | .pods => (goIndex m.pods m.cursor).map (fun p => { m with details := formatPodDetails p })
    | .pvcs => (goIndex m.pvcs m.cursor).map (fun o => { m with details := formatPVCDetails o })
    | .pvs => (goIndex m.pvs m.cursor).map (fun pv => { m with details := formatPVDetails pv })
    | .deployments => (goIndex m.deployments m.cursor).map (fun d => { m with details := formatDeploymentDetails d })
    | .statefulsets => (goIndex m.statefulsets m.cursor).map (fun o => { m with details := formatStatefulSetDetails o })
    | .daemonsets => (goIndex m.daemonsets m.cursor).map (fun o => { m with details := formatDaemonSetDetails o })
    | .services => (goIndex m.services m.cursor).map (fun o => { m with details := formatServiceDetails o })
    | .networkPolicies => (goIndex m.netpols m.cursor).map (fun o => { m with details := formatNetworkPolicyDetails o })
    | .events => (goIndex m.events m.cursor).map (fun o => { m with details := formatEventDetails o })
    | _ => some m
  pure (setView m1 .details, Cmd.none)

/-- The `y` (view YAML) key branch (main.go lines 959–1000): resolves the
kind from the current screen (or, on the details screen, the previous
screen) with an unguarded index, then fetches the YAML when a kind
matched. -/
def yKey (m : Model) : Option (Model × Cmd) := do
  let viewToCheck := if m.view = .details then m.previousView else m.view
  let info ←
    match viewToCheck with
    | .nodes => (goIndex m.nodes m.cursor).map (fun n => some ("", n.name, "Node"))
    | .pods => (goIndex m.pods m.cursor).map (fun p => some (p.ns, p.name, "Pod"))
    | .pvcs => (goIndex m.pvcs m.cursor).map (fun o => some (o.ns, o.name, "PersistentVolumeClaim"))
    | .pvs => (goIndex m.pvs m.cursor).map (fun pv => some ("", pv.name, "PersistentVolume"))
    | .deployments => (goIndex m.deployments m.cursor).map (fun d => some (d.ns, d.name, "Deployment"))
    | .statefulsets => (goIndex m.statefulsets m.cursor).map (fun o => some (o.ns, o.name, "StatefulSet"))
    | .daemonsets => (goIndex m.daemonsets m.cursor).map (fun o => some (o.ns, o.name, "DaemonSet"))
    | .services => (goIndex m.services m.cursor).map (fun o => some (o.ns, o.name, "Service"))
    | .networkPolicies => (goIndex m.netpols m.cursor).map (fun o => some (o.ns, o.name, "NetworkPolicy"))
    | .namespaces => (goIndex m.namespaces m.cursor).map (fun ns => some ("", ns.name, "Namespace"))
    | _ => some Option.none
  match info with
  | some (ns, name, kind) => pure (setView m .yaml, Cmd.getResourceYAML ns name kind)
  | Option.none => pure (m, Cmd.none)

/-- The guarded `enter` pattern shared by every list screen (main.go lines
1020–1070): `if len(list) > m.cursor` then index and show details.  The
guard admits a negative cursor, in which case the index would still panic
(`goIndex` returns `none`). -/
def enterOnList (m : Model) (l : List α) (fmt : α → String) :
    Option (Model × Cmd) :=
  if (l.length : Int) > m.cursor then
    (goIndex l m.cursor).map (fun x => (setView { m with details := fmt x } .details, Cmd.none))
  else some (m, Cmd.none)

/-- The `enter` key branch (main.go lines 1019–1132). -/
def enterKey (m : Model) : Option (Model × Cmd) :=
  match m.view with
  | .nodes => enterOnList m m.nodes formatNodeDetails
  | .pods => enterOnList m m.pods formatPodDetails
  | .pvcs => enterOnList m m.pvcs formatPVCDetails
  | .pvs => enterOnList m m.pvs formatPVDetails
  | .deployments => enterOnList m m.deployments formatDeploymentDetails
  | .statefulsets => enterOnList m m.statefulsets formatStatefulSetDetails
  | .daemonsets => enterOnList m m.daemonsets formatDaemonSetDetails
  | .services => enterOnList m m.services formatServiceDetails
  | .networkPolicies => enterOnList m m.netpols formatNetworkPolicyDetails
  | .events => enterOnList m m.events formatEventDetails
  | .resourceMenu => do
      let selected ← goIndex m.resourceTypes m.cursor
      match selected with
      | "Cluster Dashboard" => pure (setView m .dashboard, Cmd.getDashboardMetrics)
      | "Host Dashboard" => pure (setView m .hostDashboard, Cmd.getHostMetrics)
      | "Nodes" => pure (setView m .nodes, Cmd.getNodes)
      | "Pods" => pure (setView m .pods, Cmd.getPods m.selectedNamespace)
      | "PersistentVolumeClaims" => pure (setView m .pvcs, Cmd.getPVCs m.selectedNamespace)
      | "PersistentVolumes" => pure (setView m .pvs, Cmd.getPVs)
      | "Deployments" => pure (setView m .deployments, Cmd.getDeployments m.selectedNamespace)
      | "StatefulSets" => pure (setView m .statefulsets, Cmd.getStatefulSets m.selectedNamespace)
      | "DaemonSets" => pure (setView m .daemonsets, Cmd.getDaemonSets m.selectedNamespace)
      | "Services" => pure (setView m .services, Cmd.getServices m.selectedNamespace)
      | "NetworkPolicies" => pure (setView m .networkPolicies, Cmd.getNetworkPolicies m.selectedNamespace)
      | "Events" => pure (setView m .events, Cmd.getEvents m.selectedNamespace)
      | "Namespaces" => pure (setView m .namespaces, Cmd.getNamespaces)
      | _ => pure (m, Cmd.none)
  | .namespaces =>
      if m.cursor = 0 then
        some (setView { m with selectedNamespace := "" } .resourceMenu, Cmd.none)
      else
        (goIndex m.namespaces (m.cursor - 1)).map (fun ns => (setView { m with selectedNamespace := ns.name } .resourceMenu, Cmd.none))
  | .hostDashboard => do
      let tab ← goIndex m.hostTabs m.activeHostTab
      if tab = "System Logs" then do
        let lt ← goIndex m.hostLogTypes m.cursor
        pure (m, Cmd.getHostLogs lt)
      else if tab = "Application Logs" then
        if m.containers.length > 0 then do
          let c ← goIndex m.containers m.cursor
          pure (m, Cmd.getContainerLogs c)
        else pure (m, Cmd.none)
      else pure (m, Cmd.none)
  | _ => some (m, Cmd.none)

/-- The `tea.KeyMsg` branch of variant 1's `Update` (main.go lines
814–1146), including the scaling and delete-confirmation modal handlers
that run before the main key switch. -/
def keyUpdate (m : Model) (k : String) : Option (Model × Cmd) :=
  if m.view = .scaling then
    if k = "enter" then
      match m.textInput.toInt? with
      | some replicas =>
        match m.previousView with
        | .deployments =>
            (goIndex m.deployments m.cursor).map (fun d => (m, Cmd.scaleDeployment d.ns d.name replicas))
        | _ => some ({ m with textInput := textInputStep m.textInput k }, Cmd.none)
      | Option.none => some ({ m with textInput := textInputStep m.textInput k }, Cmd.none)
    else if k = "q" ∨ k = "esc" then some (setView m m.previousView, Cmd.none)
    else some ({ m with textInput := textInputStep m.textInput k }, Cmd.none)
  else if m.view = .confirmDelete then
    if k = "y" ∨ k = "Y" then
      match m.previousView with
      | .pods =>
          (goIndex m.pods m.cursor).map (fun p => (m, Cmd.deletePod p.ns p.name))
      | _ => some (m, Cmd.none)
    else if k = "n" ∨ k = "N" ∨ k = "q" ∨ k = "esc" then
      some (setView m m.previousView, Cmd.none)
    else some (m, Cmd.none)
  else if k = "q" ∨ k = "ctrl+c" then
    if m.view ≠ .resourceMenu then some (setView m .resourceMenu, Cmd.none)
    else some (m, Cmd.quit)
  else if k = "up" ∨ k = "k" then
    some ((if m.cursor > 0 then { m with cursor := m.cursor - 1 } else m), Cmd.none)
  else if k = "down" ∨ k = "j" then downKey m
  else if k = "right" ∨ k = "l" then
    if m.view = .hostDashboard then
      if m.hostTabs.length = 0 then Option.none
      else
        let newTab := (m.activeHostTab + 1) % (m.hostTabs.length : Int)
        let m1 := { m with activeHostTab := newTab, details := "",
                           viewportContent := "", cursor := 0 }
        (goIndex m1.hostTabs newTab).map (fun tab =>
            if tab = "Application Logs" then (m1, Cmd.getContainers)
            else (m1, Cmd.none))
    else some (m, Cmd.none)
  else if k = "left" ∨ k = "h" then
    if m.view = .hostDashboard then
      if m.hostTabs.length = 0 then Option.none
      else
        some ({ m with activeHostTab :=
                  (m.activeHostTab - 1 + (m.hostTabs.length : Int)) %
                    (m.hostTabs.length : Int) }, Cmd.none)
    else some (m, Cmd.none)
  else if k = "d" then dKey m
  else if k = "y" then yKey m
  else if k = "L" then
    if m.view = .pods ∨ (m.view = .details ∧ m.previousView = .pods) then
      (goIndex m.pods m.cursor).map (fun p => (setView m .logs, Cmd.getLogs p.ns p.name))
    else some (m, Cmd.none)
  else if k = "S" then
    if m.view = .deployments ∨ (m.view = .details ∧ m.previousView = .deployments) then
      some (setView { m with textInput := "" } .scaling, Cmd.none)
    else some (m, Cmd.none)
  else if k = "X" then
    if m.view = .pods ∨ (m.view = .details ∧ m.previousView = .pods) then
      some (setView m .confirmDelete, Cmd.none)
    else some (m, Cmd.none)
  else if k = "esc" then some (setView m m.previousView, Cmd.none)
  else if k = "enter" then enterKey m
  else if k = "H" then some (setView m .hostDashboard, Cmd.getHostMetrics)
  else if k = "D" then some (setView m .dashboard, Cmd.getDashboardMetrics)
  else some (m, Cmd.none)

/-- Variant 1's `Update` (main.go lines 669–1147).  Note that the data
messages (`nodesMsg`, `podsMsg`, …) return a nil command: the refresh timer
is **not** rescheduled after a fetch response in this variant, and no handler
ever clears `err`. -/
def update (m : Model) (msg : Msg) : Option (Model × Cmd) :=
  match msg with
  | .windowSize _ _ => some ({ m with ready := true }, Cmd.none)
  | .tick =>
    match m.view with
    | .nodes => some (m, Cmd.getNodes)
    | .pods => some (m, Cmd.getPods m.selectedNamespace)
    | .pvcs => some (m, Cmd.getPVCs m.selectedNamespace)
    | .pvs => some (m, Cmd.getPVs)
    | .deployments => some (m, Cmd.getDeployments m.selectedNamespace)
    | .statefulsets => some (m, Cmd.getStatefulSets m.selectedNamespace)
    | .daemonsets => some (m, Cmd.getDaemonSets m.selectedNamespace)
    | .services => some (m, Cmd.getServices m.selectedNamespace)
    | .networkPolicies => some (m, Cmd.getNetworkPolicies m.selectedNamespace)
    | .events => some (m, Cmd.getEvents m.selectedNamespace)
    | .namespaces => some (m, Cmd.getNamespaces)
    | .dashboard => some (m, Cmd.getDashboardMetrics)
    | .hostDashboard => some (m, Cmd.getHostMetrics)
    | _ => some (m, Cmd.doTick)
  | .nodesMsg nodes metrics =>
      some ({ m with nodes := nodes, nodeMetrics := metrics }, Cmd.none)
  | .podsMsg pods metrics =>
      some ({ m with pods := pods, podMetrics := metrics }, Cmd.none)
  | .pvcsMsg pvcs => some ({ m with pvcs := pvcs }, Cmd.none)
  | .pvsMsg pvs => some ({ m with pvs := pvs }, Cmd.none)
  | .deploymentsMsg ds => some ({ m with deployments := ds }, Cmd.none)
  | .statefulsetsMsg ss => some ({ m with statefulsets := ss }, Cmd.none)
  | .daemonsetsMsg ds => some ({ m with daemonsets := ds }, Cmd.none)
  | .servicesMsg ss => some ({ m with services := ss }, Cmd.none)
  | .networkPoliciesMsg ps => some ({ m with netpols := ps }, Cmd.none)
  | .eventsMsg es => some ({ m with events := es }, Cmd.none)
  | .namespacesMsg ns => some ({ m with namespaces := ns }, Cmd.none)
  | .logsMsg logs =>
      some ({ m with details := logs, viewportContent := logs }, Cmd.none)
  | .hostMsg _ _ disk =>
      some ({ m with hostDiskUsage := disk }, Cmd.none)
  | .appLogsMsg cs => some ({ m with containers := cs }, Cmd.none)
  | .hostLogsMsg logs =>
      some ({ m with details := logs, viewportContent := logs }, Cmd.none)
  | .containerLogsMsg logs =>
      some ({ m with details := logs, viewportContent := logs }, Cmd.none)
  | .yamlMsg yaml =>
      some ({ m with yamlContent := yaml, viewportContent := yaml }, Cmd.none)
  | .dashboardMsg d =>
      some ({ m with clusterCPUUsage := d.clusterCPUUsage,
                     clusterMemoryUsage := d.clusterMemoryUsage,
                     topPodsByCPU := d.topPodsByCPU,
                     topPodsByMemory := d.topPodsByMemory,
                     topNodesByCPU := d.topNodesByCPU,
                     topNodesByMemory := d.topNodesByMemory }, Cmd.none)
  | .scaleMsg =>
      let m1 := setView m m.previousView
      match m1.view with
      | .deployments => some (m1, Cmd.getDeployments m1.selectedNamespace)
      | _ => some (m1, Cmd.none)
  | .podDeletedMsg =>
      let m1 := setView m .pods
      some (m1, Cmd.getPods m1.selectedNamespace)
  | .errMsg e => some ({ m with err := some e }, Cmd.none)
  | .key k => keyUpdate m k

end V1

/-! ## Variant 2 (main.go lines 1901–3880): the variant that assigns
`m.view` directly and clamps the cursor on refresh. -/

namespace V2

/-- `viewState` of variant 2 (main.go lines 1905–1927). -/
inductive ViewState where
  | nodes | pods | pvcs | pvs | deployments | statefulsets | daemonsets
  | services | networkPolicies | events | namespaces | details | logs
  | scaling | confirmDelete | yaml | dashboard | resourceMenu | help
  | alerts | resourceQuotas
deriving DecidableEq, Repr

/-- The variant-2 `model` (main.go lines 1936–1973); same modelling
conventions as `V1.Model`. -/
structure Model where
  view               : ViewState
  previousView       : ViewState
  nodes              : List Node
  nodeMetrics        : List (String × NodeMetrics)
  pods               : List Pod
  podMetrics         : List (String × PodMetrics)
  pvcs               : List KObj
  pvs                : List PV
  deployments        : List Deployment
  statefulsets       : List KObj
  daemonsets         : List KObj
  services           : List KObj
  netpols            : List KObj
  events             : List KObj
  alerts             : List KObj
  resourcequotas     : List ResourceQuota
  resourceQuotaLines : List ResourceQuotaLine
  namespaces         : List Namespace
  resourceTypes      : List String
  selectedNamespace  : String
  details            : String
  yamlContent        : String
  clusterCPUUsage    : String
  clusterMemoryUsage : String
  topPodsByCPU       : List Pod
  topPodsByMemory    : List Pod
  topNodesByCPU      : List Node
  topNodesByMemory   : List Node
  cursor             : Int
  err                : Option String
  viewportContent    : String
  textInput          : String
  ready              : Bool
deriving DecidableEq, Repr

/-- The messages variant 2's `Update` handles (main.go lines 1975–2007). -/
inductive Msg where
  | windowSize         (width height : Int)
  | tick
  | logsMsg            (logs : String)
  | scaleMsg
  | podDeletedMsg
  | nodesMsg           (nodes : List Node) (metrics : List (String × NodeMetrics))
  | podsMsg            (pods : List Pod) (metrics : List (String × PodMetrics))
  | pvcsMsg            (pvcs : List KObj)
  | pvsMsg             (pvs : List PV)
  | deploymentsMsg     (deployments : List Deployment)
  | statefulsetsMsg    (statefulsets : List KObj)
  | daemonsetsMsg      (daemonsets : List KObj)
  | servicesMsg        (services : List KObj)
  | networkPoliciesMsg (policies : List KObj)
  | eventsMsg          (events : List KObj)
  | namespacesMsg      (namespaces : List Namespace)
  | alertsMsg          (alerts : List KObj)
  | resourceQuotasMsg  (quotas : List ResourceQuota)
  | errMsg             (e : String)
  | yamlMsg            (yaml : String)
  | dashboardMsg       (d : DashboardData)
  | key                (k : String)
deriving DecidableEq, Repr

/-- Variant 2's `formatNodeDetails(node, metrics, hasMetrics)`
(abbreviated rendering; the `hasMetrics` flag selects the `---`
placeholder, matching the best-effort metrics contract). -/
def formatNodeDetails (n : Node) (nm : Option NodeMetrics) : String :=
  "Name: " ++ n.name ++ " CPU: " ++
    (match nm with
     | some x => toString x.usageCpuMilli ++ "m"
     | Option.none => "---")

/-- Variant 2's `formatPodDetails(pod, metrics, hasMetrics)` (abbreviated). -/
def formatPodDetails (p : Pod) (pm : Option PodMetrics) : String :=
  "Name: " ++ p.name ++ " Namespace: " ++ p.ns ++ " CPU: " ++
    (match pm with
     | some x => toString (totalPodCPU x) ++ "m"
     | Option.none => "---")

/-- Variant 2's remaining detail formatters (abbreviated). -/
def formatKObjDetails (o : KObj) : String :=
  "Name: " ++ o.name ++ " Namespace: " ++ o.ns

/-- Variant 2's `formatPVDetails` (abbreviated). -/
def formatPVDetails (pv : PV) : String := "Name: " ++ pv.name

/-- Variant 2's `formatDeploymentDetails` (abbreviated). -/
def formatDeploymentDetails (d : Deployment) : String :=
  "Name: " ++ d.name ++ " Namespace: " ++ d.ns

/-- The `tickMsg` dispatch of variant 2's `Update` (main.go lines
2424–2453): the current screen's owned fetch, or `doTick` for screens with
no owned fetch.  Shared with the namespace-picker `enter` handler, which
re-enters `Update` with a synthetic `tickMsg` (line 2691). -/
def tickDispatch (m : Model) : Model × Cmd :=
  match m.view with
  | .nodes => (m, Cmd.getNodes)
  | .pods => (m, Cmd.getPods m.selectedNamespace)
  | .pvcs => (m, Cmd.getPVCs m.selectedNamespace)
  | .pvs => (m, Cmd.getPVs)
  | .deployments => (m, Cmd.getDeployments m.selectedNamespace)
  | .statefulsets => (m, Cmd.getStatefulSets m.selectedNamespace)
  | .daemonsets => (m, Cmd.getDaemonSets m.selectedNamespace)
  | .services => (m, Cmd.getServices m.selectedNamespace)
  | .networkPolicies => (m, Cmd.getNetworkPolicies m.selectedNamespace)
  | .events => (m, Cmd.getEvents m.selectedNamespace)
  | .alerts => (m, Cmd.getAlerts m.selectedNamespace)
  | .resourceQuotas => (m, Cmd.getResourceQuotas m.selectedNamespace)
  | .dashboard => (m, Cmd.getDashboardMetrics)
  | _ => (m, Cmd.doTick)

/-- The `resourceQuotasMsg` line-building loop (main.go lines 2518–2537):
one line per `(resource, used)` entry, with the hard limit defaulting to
`"0"` when the resource has no entry in `Spec.Hard`. -/
def quotaLines (quotas : List ResourceQuota) : List ResourceQuotaLine :=
  quotas.flatMap (fun rq =>
    rq.used.map (fun p =>
      { name := rq.name, resource := p.1, usedQty := p.2,
        limitQty := ((rq.hard.find? (fun q => q.1 = p.1)).map (·.2)).getD "0" }))

/-- The `tea.KeyMsg` branch of variant 2's `Update` (main.go lines
2553–2853): modal handlers (confirm-delete, scaling, logs, YAML, details,
help, namespace picker, resource menu) run before the global key switch. -/
def keyUpdate (m : Model) (k : String) : Option (Model × Cmd) :=
  if m.view = .confirmDelete then
    if k = "y" ∨ k = "Y" then
      (goIndex m.pods m.cursor).map (fun p => (m, Cmd.deletePod p.ns p.name))
    else if k = "n" ∨ k = "N" ∨ k = "esc" then
      some ({ m with view := .details }, Cmd.none)
    else some (m, Cmd.none)
  else if m.view = .scaling then
    if k = "enter" then
      match m.textInput.toInt? with
      | some replicas =>
          (goIndex m.deployments m.cursor).map
            (fun d => (m, Cmd.scaleDeployment d.ns d.name replicas))
      | Option.none => some (m, Cmd.none)
    else if k = "esc" then
      some ({ m with view := .details, textInput := "" }, Cmd.none)
    else some ({ m with textInput := V1.textInputStep m.textInput k }, Cmd.none)
  else if m.view = .logs then
    if k = "esc" ∨ k = "backspace" ∨ k = "q" then
      some ({ m with view := .details }, Cmd.none)
    else some (m, Cmd.none)
  else if m.view = .yaml then
    if k = "esc" ∨ k = "backspace" ∨ k = "q" then
      some ({ m with view := .details }, Cmd.none)
    else some (m, Cmd.none)
  else if m.view = .details then
    if k = "d" then
      if m.previousView = .pods then
        some ({ m with view := .confirmDelete }, Cmd.none)
      else some (m, Cmd.none)
    else if k = "r" then
      if m.previousView = .deployments then do
        let d ← goIndex m.deployments m.cursor
        let r ← d.replicas
        pure ({ m with view := .scaling, textInput := toString r }, Cmd.none)
      else some (m, Cmd.none)
    else if k = "l" then
      if m.previousView = .pods then
        (goIndex m.pods m.cursor).map (fun p => (m, Cmd.getLogs p.ns p.name))
      else some (m, Cmd.none)
    else if k = "y" then
      match m.previousView with
      | .nodes => (goIndex m.nodes m.cursor).map (fun n => (m, Cmd.getResourceYAML "" n.name "Node"))
      | .pods => (goIndex m.pods m.cursor).map (fun p => (m, Cmd.getResourceYAML p.ns p.name "Pod"))
      | .pvcs => (goIndex m.pvcs m.cursor).map (fun o => (m, Cmd.getResourceYAML o.ns o.name "PersistentVolumeClaim"))
      | .pvs => (goIndex m.pvs m.cursor).map (fun pv => (m, Cmd.getResourceYAML "" pv.name "PersistentVolume"))
      | .deployments => (goIndex m.deployments m.cursor).map (fun d => (m, Cmd.getResourceYAML d.ns d.name "Deployment"))
      | .statefulsets => (goIndex m.statefulsets m.cursor).map (fun o => (m, Cmd.getResourceYAML o.ns o.name "StatefulSet"))
      | .daemonsets => (goIndex m.daemonsets m.cursor).map (fun o => (m, Cmd.getResourceYAML o.ns o.name "DaemonSet"))
      | .services => (goIndex m.services m.cursor).map (fun o => (m, Cmd.getResourceYAML o.ns o.name "Service"))
      | .networkPolicies => (goIndex m.netpols m.cursor).map (fun o => (m, Cmd.getResourceYAML o.ns o.name "NetworkPolicy"))
      | .events => (goIndex m.events m.cursor).map (fun o => (m, Cmd.getResourceYAML o.ns o.name "Event"))
      | _ => some (m, Cmd.none)
    else if k = "esc" ∨ k = "backspace" then
      some ({ m with view := m.previousView }, Cmd.none)
    else some (m, Cmd.none)
  else if m.view = .help then
    if k = "esc" ∨ k = "backspace" ∨ k = "q" ∨ k = "?" then
      some ({ m with view := m.previousView }, Cmd.none)
    else some (m, Cmd.none)
  else if m.view = .namespaces then
    if k = "enter" then do
      let m1 ←
        if m.cursor = 0 then some { m with selectedNamespace := "" }
        else (goIndex m.namespaces (m.cursor - 1)).map (fun ns => { m with selectedNamespace := ns.name })
      pure (tickDispatch { m1 with view := m1.previousView })
    else if k = "esc" ∨ k = "backspace" ∨ k = "N" then
      some ({ m with view := m.previousView }, Cmd.none)
    else if k = "up" then
      some ((if m.cursor > 0 then { m with cursor := m.cursor - 1 } else m), Cmd.none)
    else if k = "down" then
      some ((if m.cursor < (m.namespaces.length : Int) then { m with cursor := m.cursor + 1 } else m), Cmd.none)
    else some (m, Cmd.none)
  else if m.view = .resourceMenu then
    if k = "enter" then do
      let selected ← goIndex m.resourceTypes m.cursor
      match selected with
      | "Nodes" => pure ({ m with view := .nodes }, Cmd.getNodes)
      | "Pods" => pure ({ m with view := .pods }, Cmd.getPods m.selectedNamespace)
      | "Deployments" => pure ({ m with view := .deployments }, Cmd.getDeployments m.selectedNamespace)
      | "StatefulSets" => pure ({ m with view := .statefulsets }, Cmd.getStatefulSets m.selectedNamespace)
      | "DaemonSets" => pure ({ m with view := .daemonsets }, Cmd.getDaemonSets m.selectedNamespace)
      | "Services" => pure ({ m with view := .services }, Cmd.getServices m.selectedNamespace)
      | "PVCs" => pure ({ m with view := .pvcs }, Cmd.getPVCs m.selectedNamespace)
      | "PVs" => pure ({ m with view := .pvs }, Cmd.getPVs)
      | "Network Policies" => pure ({ m with view := .networkPolicies }, Cmd.getNetworkPolicies m.selectedNamespace)
      | "Events" => pure ({ m with view := .events }, Cmd.getEvents m.selectedNamespace)
      | "Alerts" => pure ({ m with view := .alerts }, Cmd.getAlerts m.selectedNamespace)
      | "Resource Quotas" => pure ({ m with view := .resourceQuotas }, Cmd.getResourceQuotas m.selectedNamespace)
      | _ => pure (m, Cmd.none)
    else if k = "esc" ∨ k = "backspace" ∨ k = "r" then
      some ({ m with view := m.previousView }, Cmd.none)
    else if k = "up" then
      some ((if m.cursor > 0 then { m with cursor := m.cursor - 1 } else m), Cmd.none)
    else if k = "down" then
      some ((if m.cursor < (m.resourceTypes.length : Int) - 1 then { m with cursor := m.cursor + 1 } else m), Cmd.none)
    else some (m, Cmd.none)
  else if k = "?" then
    some ({ m with previousView := m.view, view := .help }, Cmd.none)
  else if k = "q" ∨ k = "ctrl+c" then some (m, Cmd.quit)
  else if k = "r" then
    some ({ m with previousView := m.view, view := .resourceMenu, cursor := 0 }, Cmd.none)
  else if k = "N" then
    some ({ m with previousView := m.view, view := .namespaces }, Cmd.getNamespaces)
  else if k = "D" then
    some ({ m with previousView := m.view, view := .dashboard }, Cmd.getDashboardMetrics)
  else if k = "A" then
    some ({ m with previousView := m.view, view := .alerts }, Cmd.getAlerts m.selectedNamespace)
  else if k = "Q" then
    some ({ m with previousView := m.view, view := .resourceQuotas }, Cmd.getResourceQuotas m.selectedNamespace)
  else if k = "up" then
    some ((if m.cursor > 0 then { m with cursor := m.cursor - 1 } else m), Cmd.none)
  else if k = "down" ∨ k = "j" then
    let listLen : Nat :=
      match m.view with
      | .nodes => m.nodes.length
      | .pods => m.pods.length
      | .pvcs => m.pvcs.length
      | .pvs => m.pvs.length
      | .deployments => m.deployments.length
      | .statefulsets => m.statefulsets.length
      | .daemonsets => m.daemonsets.length
      | .services => m.services.length
      | .networkPolicies => m.netpols.length
      | .events => m.events.length
      | .resourceQuotas => m.resourceQuotaLines.length
      | _ => 0
    some ((if m.cursor < (listLen : Int) - 1 then { m with cursor := m.cursor + 1 } else m), Cmd.none)
  else if k = "enter" then
    let m1 := { m with previousView := m.view, view := .details }
    match m1.previousView with
    | .nodes => (goIndex m.nodes m.cursor).map
        (fun n => ({ m1 with details := formatNodeDetails n (mapGet m.nodeMetrics n.name) }, Cmd.none))
    | .pods => (goIndex m.pods m.cursor).map
        (fun p => ({ m1 with details := formatPodDetails p (mapGet m.podMetrics p.name) }, Cmd.none))
    | .pvcs => (goIndex m.pvcs m.cursor).map
        (fun o => ({ m1 with details := formatKObjDetails o }, Cmd.none))
    | .pvs => (goIndex m.pvs m.cursor).map
        (fun pv => ({ m1 with details := formatPVDetails pv }, Cmd.none))
    | .deployments => (goIndex m.deployments m.cursor).map
        (fun d => ({ m1 with details := formatDeploymentDetails d }, Cmd.none))
    | .statefulsets => (goIndex m.statefulsets m.cursor).map
        (fun o => ({ m1 with details := formatKObjDetails o }, Cmd.none))
    | .daemonsets => (goIndex m.daemonsets m.cursor).map
        (fun o => ({ m1 with details := formatKObjDetails o }, Cmd.none))
    | .services => (goIndex m.services m.cursor).map
        (fun o => ({ m1 with details := formatKObjDetails o }, Cmd.none))
    | .networkPolicies => (goIndex m.netpols m.cursor).map
        (fun o => ({ m1 with details := formatKObjDetails o }, Cmd.none))
    | .events => (goIndex m.events m.cursor).map
        (fun o => ({ m1 with details := formatKObjDetails o }, Cmd.none))
    | _ => some (m1, Cmd.none)
  else some (m, Cmd.none)

/-- Variant 2's `Update` (main.go lines 2404–2856).  Successful list
responses clamp the cursor (or reset it to 0) and reschedule the refresh
timer with `doTick`; the `errMsg` handler records the error and returns a
nil command — the timer is **not** rescheduled after an error — and no
handler ever clears `err`. -/
def update (m : Model) (msg : Msg) : Option (Model × Cmd) :=
  match msg with
  | .windowSize _ _ => some ({ m with ready := true }, Cmd.none)
  | .tick => some (tickDispatch m)
  | .logsMsg logs =>
      some ({ m with viewportContent := logs, view := .logs }, Cmd.none)
  | .scaleMsg =>
      some ({ m with view := .details }, Cmd.getDeployments m.selectedNamespace)
  | .podDeletedMsg =>
      some ({ m with view := .pods }, Cmd.getPods m.selectedNamespace)
  | .namespacesMsg ns =>
      some ({ m with namespaces := ns, cursor := 0 }, Cmd.none)
  | .nodesMsg nodes metrics =>
      let m1 := { m with nodes := nodes, nodeMetrics := metrics }
      some ((if m1.cursor ≥ (m1.nodes.length : Int) then { m1 with cursor := 0 } else m1), Cmd.doTick)
  | .podsMsg pods metrics =>
      let m1 := { m with pods := pods, podMetrics := metrics }
      some ((if m1.cursor ≥ (m1.pods.length : Int) then { m1 with cursor := 0 } else m1), Cmd.doTick)
  | .pvcsMsg pvcs => some ({ m with pvcs := pvcs, cursor := 0 }, Cmd.doTick)
  | .pvsMsg pvs => some ({ m with pvs := pvs, cursor := 0 }, Cmd.doTick)
  | .deploymentsMsg ds => some ({ m with deployments := ds, cursor := 0 }, Cmd.doTick)
  | .statefulsetsMsg ss => some ({ m with statefulsets := ss, cursor := 0 }, Cmd.doTick)
  | .daemonsetsMsg ds => some ({ m with daemonsets := ds, cursor := 0 }, Cmd.doTick)
  | .servicesMsg ss => some ({ m with services := ss, cursor := 0 }, Cmd.doTick)
  | .networkPoliciesMsg ps => some ({ m with netpols := ps, cursor := 0 }, Cmd.doTick)
  | .eventsMsg es => some ({ m with events := es, cursor := 0 }, Cmd.doTick)
  | .alertsMsg als => some ({ m with alerts := als, cursor := 0 }, Cmd.doTick)
  | .resourceQuotasMsg quotas =>
      some ({ m with resourcequotas := quotas,
                     resourceQuotaLines := quotaLines quotas,
                     cursor := 0 }, Cmd.doTick)
  | .errMsg e => some ({ m with err := some e }, Cmd.none)
  | .yamlMsg yaml =>
      some ({ m with yamlContent := yaml, view := .yaml }, Cmd.none)
  | .dashboardMsg d =>
      some ({ m with clusterCPUUsage := d.clusterCPUUsage,
                     clusterMemoryUsage := d.clusterMemoryUsage,
                     topPodsByCPU := d.topPodsByCPU,
                     topPodsByMemory := d.topPodsByMemory,
                     topNodesByCPU := d.topNodesByCPU,
                     topNodesByMemory := d.topNodesByMemory }, Cmd.doTick)
  | .key k => keyUpdate m k

end V2

/-! ## Rendering (the claim-relevant structure of `View`). -/

/-- A single-quote character, spliced into rendered text. -/
def sq : String := String.singleton (Char.ofNat 39)

namespace V1

/-- `renderHeader` (main.go lines 1210–1217; the lipgloss style wrapper is
the identity in this model). -/
def renderHeader (m : Model) : String :=
  let ns := if m.selectedNamespace = "" then "all" else m.selectedNamespace
  "kubeview | Namespace: " ++ ns ++ " | Press " ++ sq ++ "?" ++ sq ++ " for help"

/-- `renderFooter` (main.go lines 1219–1236). -/
def renderFooter (m : Model) : String :=
  match m.view with
  | .hostDashboard => " (l/h) change tab | (↑/↓) navigate"
  | .details =>
      match m.previousView with
      | .pods => " (L)ogs | (X)delete | (Y)AML"
      | .deployments => " (S)cale Replicas"
      | _ => ""
  | _ => " (q)uit | (b)ack to menu | (↑/↓) navigate"

/-- The body chosen by variant 1's `View` switch (main.go lines
1160–1204).  Table text of the per-kind list renderers is display styling
(spec section 1) and is abstracted to a constructor naming the screen; the
branches a claim inspects carry the data the source computes there. -/
inductive PageContent where
  | help
  | resourceMenu
  | nodesList | podsList | pvcsList | pvsList | deploymentsList
  | statefulsetsList | daemonsetsList | servicesList | netpolsList
  | eventsList | namespacesList
  | viewportText (content : String) (extraKeys : String)
  | scalingPrompt (input : String)
  | confirmDelete (podName : String)
  | dashboard
  | hostDashboard
  | blank
deriving DecidableEq, Repr

/-- The `switch m.view` of variant 1's `View`; the delete-confirmation
branch renders `m.pods[m.cursor].Name` with an unguarded index (line
1199). -/
def pageContent (m : Model) : Option PageContent :=
  match m.view with
  | .help => some .help
  | .resourceMenu => some .resourceMenu
  | .nodes => some .nodesList
  | .pods => some .podsList
  | .pvcs => some .pvcsList
  | .pvs => some .pvsList
  | .deployments => some .deploymentsList
  | .statefulsets => some .statefulsetsList
  | .daemonsets => some .daemonsetsList
  | .services => some .servicesList
  | .networkPolicies => some .netpolsList
  | .events => some .eventsList
  | .namespaces => some .namespacesList
  | .details | .logs | .yaml =>
      some (.viewportText m.viewportContent
        (match m.previousView with
         | .pods => "(L)ogs | (X)delete | (Y)AML"
         | .deployments => "(S)cale Replicas"
         | _ => ""))
  | .scaling => some (.scalingPrompt m.textInput)
  | .confirmDelete => (goIndex m.pods m.cursor).map (fun p => .confirmDelete p.name)
  | .dashboard => some .dashboard
  | .hostDashboard => some .hostDashboard
  | .hostLogs | .appLogs => some .blank

/-- The whole rendered frame of variant 1's `View`. -/
inductive Rendered where
  | errorBanner (text : String)
  | initializing
  | page (header : String) (content : PageContent) (footer : String)
deriving DecidableEq, Repr

/-- Variant 1's `View` (main.go lines 1149–1208): a non-nil error renders a
bare error banner **in place of** header, content and footer; before the
first window-size message the screen shows only the init placeholder. -/
def View (m : Model) : Option Rendered :=
  match m.err with
  | some e => some (.errorBanner ("Error: " ++ e))
  | Option.none =>
      if !m.ready then some .initializing
      else (pageContent m).map (fun c => .page (renderHeader m) c (renderFooter m))

end V1

namespace V2

/-- `headerView`'s title computation (main.go lines 2858–2913); the logs,
scaling and confirm-delete titles index their lists unguarded. -/
def headerTitle (m : Model) : Option String :=
  let nsText := if m.selectedNamespace = "" then "all namespaces" else m.selectedNamespace
  match m.view with
  | .nodes => some "Nodes"
  | .pods => some ("Pods in " ++ nsText)
  | .pvcs => some ("PVCs in " ++ nsText)
  | .pvs => some "PersistentVolumes"
  | .deployments => some ("Deployments in " ++ nsText)
  | .statefulsets => some ("StatefulSets in " ++ nsText)
  | .daemonsets => some ("DaemonSets in " ++ nsText)
  | .services => some ("Services in " ++ nsText)
  | .networkPolicies => some ("Network Policies in " ++ nsText)
  | .events => some ("Events in " ++ nsText)
  | .alerts => some ("Alerts in " ++ nsText)
  | .resourceQuotas => some ("Resource Quotas in " ++ nsText)
  | .namespaces => some "Select Namespace"
  | .resourceMenu => some "Select Resource"
  | .help => some "Help"
  | .details => some "Details"
  | .logs => (goIndex m.pods m.cursor).map (fun p => "Logs for " ++ p.name)
  | .scaling => (goIndex m.deployments m.cursor).map (fun d => "Scale Deployment: " ++ d.name)
  | .confirmDelete => (goIndex m.pods m.cursor).map (fun p => "Delete Pod: " ++ p.name)
  | .yaml => some "YAML Details"
  | .dashboard => some "Cluster Dashboard"

/-- The rendered frame of variant 2's `View`; the page body and footer are
display styling and are abstracted, the page is identified by its header
title. -/
inductive Rendered where
  | initializing
  | errorBanner (text : String)
  | page (title : String)
deriving DecidableEq, Repr

/-- Variant 2's `View` top level (main.go lines 2952–3025): init
placeholder first, then — with a non-nil error — an error banner **in place
of** the whole page. -/
def View (m : Model) : Option Rendered :=
  if !m.ready then some .initializing
  else
    match m.err with
    | some e => some (.errorBanner ("Error: " ++ e))
    | Option.none => (headerTitle m).map .page

end V2

/-! ## Percentage formatting.

Go's `float64` arithmetic is modelled as exact rational arithmetic and
`fmt.Sprintf("%.*f")` as correct rounding with ties to even; the binary
double-rounding of real float64 affects none of the values any claim
tests, and the program only ever formats non-negative percentages. -/

/-- The exact rational `num/den` (den ≠ 0) rounded to the nearest
integer, ties to even — the rounding `%.0f` applies. -/
def roundHalfEvenDiv (num den : Int) : Int :=
  let n := if den < 0 then -num else num
  let d := if den < 0 then -den else den
  let q := Int.ediv n d
  let r := Int.emod n d
  if 2 * r < d then q
  else if d < 2 * r then q + 1
  else if Int.emod q 2 = 0 then q else q + 1

/-- `fmt.Sprintf("%.0f", num/den)` for the non-negative values the
program formats. -/
def fmtF0frac (num den : Int) : String := toString (roundHalfEvenDiv num den)

/-- `fmt.Sprintf("%.2f", num/den)` for the non-negative values the
program formats: two digits after the decimal point. -/
def fmtF2frac (num den : Int) : String :=
  let n := roundHalfEvenDiv (num * 100) den
  let fp := Int.emod n 100
  toString (Int.ediv n 100) ++ "." ++
    (if fp < 10 then "0" ++ toString fp else toString fp)

namespace V1

/-- Variant 1's `formatPercentage` (main.go lines 1788–1793):
`"0"` when `total == 0`, otherwise `Sprintf("%.2f", used/total*100)` —
a **two-decimal** string of the value `used/total*100`. -/
def formatPercentage (used total : Int) : String :=
  if total = 0 then "0" else fmtF2frac (used * 100) total

end V1

namespace V2

/-- Variant 2's `formatPercentage` (main.go lines 3775–3780):
`"0"` when `total == 0`, otherwise `Sprintf("%.0f", val*100/total)` — the
integer-rounded string of the value `val*100/total`. -/
def formatPercentage (val total : Int) : String :=
  if total = 0 then "0" else fmtF0frac (val * 100) total

end V2

/-! ## The dashboard aggregator core (`getDashboardMetrics`, main.go lines
501–659 and 2266–2398 — identical ranking logic in both variants).

The network fetches are I/O; the pure core combines the fetched node/pod
lists with the metrics indexes.  The four rankings are produced by Go's
`sort.Slice`, which is documented **not** to be stable; it is therefore
modelled by its contract `SortSliceSpec`: any permutation of the input that
is non-increasing under the comparator is an admissible result. -/

namespace Agg

/-- The `podsWithMetrics` loop (lines 556–565 / 2321–2330): pods absent
from the metrics index are skipped; each kept pod is paired with its total
CPU (millicores) and memory (bytes) usage. -/
def podsWithMetrics (pods : List Pod) (pmIndex : List (String × PodMetrics)) :
    List (Pod × Int × Int) :=
  pods.filterMap (fun p =>
    (mapGet pmIndex p.name).map (fun pm => (p, totalPodCPU pm, totalPodMemory pm)))

/-- The `nodesWithMetrics` loop (lines 567–576 / 2332–2341). -/
def nodesWithMetrics (nodes : List Node) (nmIndex : List (String × NodeMetrics)) :
    List (Node × Int × Int) :=
  nodes.filterMap (fun n =>
    (mapGet nmIndex n.name).map (fun nm => (n, nm.usageCpuMilli, nm.usageMemBytes)))

/-- Total cluster CPU capacity (lines 520–528): every node counts,
metrics or not. -/
def totalCPUCapacity (nodes : List Node) : Int := (nodes.map (·.capCpuMilli)).sum

/-- Total cluster memory capacity. -/
def totalMemoryCapacity (nodes : List Node) : Int := (nodes.map (·.capMemBytes)).sum

/-- Total cluster CPU usage: only nodes present in the metrics index
contribute. -/
def totalCPUUsage (nodes : List Node) (nmIndex : List (String × NodeMetrics)) : Int :=
  (nodes.filterMap (fun n => (mapGet nmIndex n.name).map (·.usageCpuMilli))).sum

/-- Total cluster memory usage. -/
def totalMemoryUsage (nodes : List Node) (nmIndex : List (String × NodeMetrics)) : Int :=
  (nodes.filterMap (fun n => (mapGet nmIndex n.name).map (·.usageMemBytes))).sum

/-- CPU key of an item paired with its `(cpu, mem)` usage. -/
def cpuKey (t : α × Int × Int) : Int := t.2.1

/-- Memory key of an item paired with its `(cpu, mem)` usage. -/
def memKey (t : α × Int × Int) : Int := t.2.2

/-- The documented contract of `sort.Slice(xs, less)` with
`less i j := key xs[i] > key xs[j]`: the result is a permutation of the
input that is non-increasing on `key`.  `sort.Slice` guarantees nothing
about the relative order of elements with equal keys. -/
def SortSliceSpec (key : α → Int) (input output : List α) : Prop :=
  input.Perm output ∧ output.Pairwise (fun a b => key b ≤ key a)

/-- The top-N extraction (lines 606–622 / 2371–2387): the first five
entries of the sorted slice, projected back to the bare object. -/
def topFive (sorted : List (β × Int × Int)) : List β := (sorted.take 5).map (·.1)

/-- Insert into a descending-sorted list *after* all entries with an equal
or larger key — the stable placement the spec's wording demands. -/
def insertDesc (key : α → Int) (x : α) : List α → List α
  | [] => [x]
  | b :: bs => if key b ≤ key x then x :: b :: bs else b :: insertDesc key x bs

/-- Modelled from the spec: the *stable* descending sort the spec's
"ties broken by original list order (a stable sort)" describes — written
from the spec's words, for comparison with the `sort.Slice` contract the
code actually uses. -/
def stableSortDesc (key : α → Int) : List α → List α
  | [] => []
  | x :: xs => insertDesc key x (stableSortDesc key xs)

end Agg

/-! ## Concrete fixtures for witnesses and counterexamples. -/

namespace V1

/-- An empty, ready variant-1 model used as the starting point of concrete
scenarios. -/
def base : Model :=
  { view := .resourceMenu, previousView := .resourceMenu, nodes := [],
    nodeMetrics := [], pods := [], podMetrics := [], pvcs := [], pvs := [],
    deployments := [], statefulsets := [], daemonsets := [], services := [],
    netpols := [], events := [], namespaces := [], resourceTypes := [],
    hostLogTypes := [], selectedNamespace := "", details := "",
    yamlContent := "", clusterCPUUsage := "", clusterMemoryUsage := "",
    topPodsByCPU := [], topPodsByMemory := [], topNodesByCPU := [],
    topNodesByMemory := [], cursor := 0, err := Option.none,
    viewportContent := "", textInput := "", hostTabs := [],
    activeHostTab := 0, hostDiskUsage := [], containers := [], ready := true }

end V1

namespace V2

/-- An empty, ready variant-2 model used as the starting point of concrete
scenarios. -/
def base : Model :=
  { view := .resourceMenu, previousView := .resourceMenu, nodes := [],
    nodeMetrics := [], pods := [], podMetrics := [], pvcs := [], pvs := [],
    deployments := [], statefulsets := [], daemonsets := [], services := [],
    netpols := [], events := [], alerts := [], resourcequotas := [],
    resourceQuotaLines := [], namespaces := [], resourceTypes := [],
    selectedNamespace := "", details := "", yamlContent := "",
    clusterCPUUsage := "", clusterMemoryUsage := "", topPodsByCPU := [],
    topPodsByMemory := [], topNodesByCPU := [], topNodesByMemory := [],
    cursor := 0, err := Option.none, viewportContent := "", textInput := "",
    ready := true }

end V2

/-- Classifies the commands that issue an asynchronous API/host call
(everything except the nil command, quit, and the timer reschedule). -/
def isFetchCmd : Cmd → Bool
  | .none | .quit | .doTick => false
  | _ => true

/-- Variant 1's tick dispatch table (the `switch m.view` of the `tickMsg`
case, main.go lines 687–717), as a function of the screen and the selected
namespace: the one fetch the screen owns, or `doTick` for screens with no
owned fetch. -/
def V1.tickCmd (v : V1.ViewState) (ns : String) : Cmd :=
  match v with
  | .nodes => Cmd.getNodes
  | .pods => Cmd.getPods ns
  | .pvcs => Cmd.getPVCs ns
  | .pvs => Cmd.getPVs
  | .deployments => Cmd.getDeployments ns
  | .statefulsets => Cmd.getStatefulSets ns
  | .daemonsets => Cmd.getDaemonSets ns
  | .services => Cmd.getServices ns
  | .networkPolicies => Cmd.getNetworkPolicies ns
  | .events => Cmd.getEvents ns
  | .namespaces => Cmd.getNamespaces
  | .dashboard => Cmd.getDashboardMetrics
  | .hostDashboard => Cmd.getHostMetrics
  | _ => Cmd.doTick

/-- The variant-1 messages that carry data back into the event loop:
everything except an error message and a keypress. -/
def V1.isDataMsg : V1.Msg → Bool
  | .errMsg _ => false
  | .key _ => false
  | _ => true

/-- The variant-2 messages that carry data back into the event loop. -/
def V2.isDataMsg : V2.Msg → Bool
  | .errMsg _ => false
  | .key _ => false
  | _ => true

/-- Variant 1's list screens: the screens whose `up`/`down` handlers move
the selection cursor over a list (the resource lists, the namespace list
and the resource-type menu). -/
def V1.isListScreen : V1.ViewState → Bool
  | .nodes | .pods | .pvcs | .pvs | .deployments | .statefulsets
  | .daemonsets | .services | .networkPolicies | .events | .namespaces
  | .resourceMenu => true
  | _ => false

/-- The length of the list the current variant-1 screen scrolls (the list
each `down` branch bounds the cursor by). -/
def V1.listLen (m : V1.Model) : Nat :=
  match m.view with
  | .nodes => m.nodes.length
  | .pods => m.pods.length
  | .pvcs => m.pvcs.length
  | .pvs => m.pvs.length
  | .deployments => m.deployments.length
  | .statefulsets => m.statefulsets.length
  | .daemonsets => m.daemonsets.length
  | .services => m.services.length
  | .networkPolicies => m.netpols.length
  | .events => m.events.length
  | .namespaces => m.namespaces.length
  | .resourceMenu => m.resourceTypes.length
  | _ => 0

/-- The cursor invariant of the spec: within `[0, len-1]` on a non-empty
list, pinned to `0` on an empty list. -/
def V1.cursorInBounds (m : V1.Model) : Prop :=
  0 ≤ m.cursor ∧
    (m.cursor < (V1.listLen m : Int) ∨ (V1.listLen m = 0 ∧ m.cursor = 0))

/-- Runs a sequence of keypresses through variant 1's `Update`, keeping the
model (`none` = some step panicked). -/
def V1.applyKeys (m : V1.Model) (ks : List String) : Option V1.Model :=
  ks.foldlM (fun s k => (V1.update s (.key k)).map (·.1)) m

/-- Variant 2's list screens: the screens the global `down`/`j` handler
scrolls (main.go lines 2794–2822). -/
def V2.isListScreen : V2.ViewState → Bool
  | .nodes | .pods | .pvcs | .pvs | .deployments | .statefulsets
  | .daemonsets | .services | .networkPolicies | .events
  | .resourceQuotas => true
  | _ => false

/-- The length of the list the current variant-2 screen scrolls. -/
def V2.listLen (m : V2.Model) : Nat :=
  match m.view with
  | .nodes => m.nodes.length
  | .pods => m.pods.length
  | .pvcs => m.pvcs.length
  | .pvs => m.pvs.length
  | .deployments => m.deployments.length
  | .statefulsets => m.statefulsets.length
  | .daemonsets => m.daemonsets.length
  | .services => m.services.length
  | .networkPolicies => m.netpols.length
  | .events => m.events.length
  | .resourceQuotas => m.resourceQuotaLines.length
  | _ => 0

/-- The cursor invariant for variant 2. -/
def V2.cursorInBounds (m : V2.Model) : Prop :=
  0 ≤ m.cursor ∧
    (m.cursor < (V2.listLen m : Int) ∨ (V2.listLen m = 0 ∧ m.cursor = 0))

/-- Runs a sequence of keypresses through variant 2's `Update`. -/
def V2.applyKeys (m : V2.Model) (ks : List String) : Option V2.Model :=
  ks.foldlM (fun s k => (V2.update s (.key k)).map (·.1)) m

/-! ## Helper lemmas. -/

/-- On a variant-1 list screen, `up`/`k` decrements the cursor when it is
positive and otherwise leaves the model unchanged. -/
theorem V1.upStepOne (m : V1.Model) (k : String) (hk : k = "up" ∨ k = "k")
    (hv : V1.isListScreen m.view = true) :
    V1.update m (.key k) =
      some ((if 0 < m.cursor then { m with cursor := m.cursor - 1 } else m), Cmd.none) := by
  rcases hk with h | h <;> subst h <;>
    cases hw : m.view <;> simp_all [V1.isListScreen] <;>
    simp [V1.update, V1.keyUpdate, hw]

/-- On a variant-1 list screen, `down`/`j` bumps the cursor against the
length of the screen's list. -/
theorem V1.downStepOne (m : V1.Model) (k : String) (hk : k = "down" ∨ k = "j")
    (hv : V1.isListScreen m.view = true) :
    V1.update m (.key k) = some (V1.bump m (V1.listLen m), Cmd.none) := by
  rcases hk with h | h <;> subst h <;>
    cases hw : m.view <;> simp_all [V1.isListScreen] <;>
    simp [V1.update, V1.keyUpdate, V1.downKey, V1.listLen, hw]

/-- A single variant-1 `up`/`down` keypress on a list screen only moves the
cursor, and preserves the cursor-bounds invariant. -/
theorem V1.udStepOne (m : V1.Model) (k : String)
    (hk : k = "up" ∨ k = "k" ∨ k = "down" ∨ k = "j")
    (hv : V1.isListScreen m.view = true) (hb : V1.cursorInBounds m) :
    ∃ c, V1.update m (.key k) = some ({ m with cursor := c }, Cmd.none) ∧
      V1.cursorInBounds { m with cursor := c } := by
  have hcb : ∀ c : Int, V1.cursorInBounds { m with cursor := c } ↔
      (0 ≤ c ∧ (c < (V1.listLen m : Int) ∨ (V1.listLen m = 0 ∧ c = 0))) :=
    fun c => Iff.rfl
  obtain ⟨hb0, hbl⟩ := hb
  have hud : (k = "up" ∨ k = "k") ∨ (k = "down" ∨ k = "j") := by tauto
  rcases hud with h | h
  · rw [V1.upStepOne m k h hv]
    by_cases hc : 0 < m.cursor
    · exact ⟨m.cursor - 1, by simp [hc], (hcb _).mpr (by omega)⟩
    · exact ⟨m.cursor, by simp [hc], (hcb _).mpr (by omega)⟩
  · rw [V1.downStepOne m k h hv]
    unfold V1.bump
    by_cases hc : m.cursor < (V1.listLen m : Int) - 1
    · exact ⟨m.cursor + 1, by simp [hc], (hcb _).mpr (by omega)⟩
    · exact ⟨m.cursor, by simp [hc], (hcb _).mpr (by omega)⟩

/-- Any sequence of variant-1 `up`/`down` keypresses on a list screen
keeps the screen and the cursor-bounds invariant. -/
theorem V1.udFoldOne (ks : List String) (m : V1.Model)
    (hks : ∀ k ∈ ks, k = "up" ∨ k = "k" ∨ k = "down" ∨ k = "j")
    (hv : V1.isListScreen m.view = true) (hb : V1.cursorInBounds m) :
    ∃ m', V1.applyKeys m ks = some m' ∧ m'.view = m.view ∧ V1.cursorInBounds m' := by
  induction ks generalizing m with
  | nil => exact ⟨m, rfl, rfl, hb⟩
  | cons k ks ih =>
    obtain ⟨c, hstep, hbc⟩ := V1.udStepOne m k (hks k (by simp)) hv hb
    obtain ⟨m', hm', hview, hb'⟩ :=
      ih { m with cursor := c } (fun k hk => hks k (by simp [hk])) hv hbc
    exact ⟨m', by simpa [V1.applyKeys, hstep] using hm', hview, hb'⟩

/-- Variant-2 analogue of `V1.upStepOne` (the `up` key only). -/
theorem V2.upStepTwo (m : V2.Model)
    (hv : V2.isListScreen m.view = true) :
    V2.update m (.key "up") =
      some ((if 0 < m.cursor then { m with cursor := m.cursor - 1 } else m), Cmd.none) := by
  cases hw : m.view <;> simp_all [V2.isListScreen] <;>
    simp [V2.update, V2.keyUpdate, hw]

/-- Variant-2 analogue of `V1.downStepOne`. -/
theorem V2.downStepTwo (m : V2.Model) (k : String) (hk : k = "down" ∨ k = "j")
    (hv : V2.isListScreen m.view = true) :
    V2.update m (.key k) =
      some ((if m.cursor < (V2.listLen m : Int) - 1 then { m with cursor := m.cursor + 1 } else m),
            Cmd.none) := by
  rcases hk with h | h <;> subst h <;>
    cases hw : m.view <;> simp_all [V2.isListScreen] <;>
    simp [V2.update, V2.keyUpdate, V2.listLen, hw]

/-- A single variant-2 `up`/`down` keypress on a list screen preserves the
cursor-bounds invariant. -/
theorem V2.udStepTwo (m : V2.Model) (k : String)
    (hk : k = "up" ∨ k = "down" ∨ k = "j")
    (hv : V2.isListScreen m.view = true) (hb : V2.cursorInBounds m) :
    ∃ c, V2.update m (.key k) = some ({ m with cursor := c }, Cmd.none) ∧
      V2.cursorInBounds { m with cursor := c } := by
  have hcb : ∀ c : Int, V2.cursorInBounds { m with cursor := c } ↔
      (0 ≤ c ∧ (c < (V2.listLen m : Int) ∨ (V2.listLen m = 0 ∧ c = 0))) :=
    fun c => Iff.rfl
  obtain ⟨hb0, hbl⟩ := hb
  rcases hk with h | h
  · subst h
    rw [V2.upStepTwo m hv]
    by_cases hc : 0 < m.cursor
    · exact ⟨m.cursor - 1, by simp [hc], (hcb _).mpr (by omega)⟩
    · exact ⟨m.cursor, by simp [hc], (hcb _).mpr (by omega)⟩
  · rw [V2.downStepTwo m k h hv]
    by_cases hc : m.cursor < (V2.listLen m : Int) - 1
    · exact ⟨m.cursor + 1, by simp [hc], (hcb _).mpr (by omega)⟩
    · exact ⟨m.cursor, by simp [hc], (hcb _).mpr (by omega)⟩

/-- Any sequence of variant-2 `up`/`down` keypresses on a list screen
keeps the screen and the cursor-bounds invariant. -/
theorem V2.udFoldTwo (ks : List String) (m : V2.Model)
    (hks : ∀ k ∈ ks, k = "up" ∨ k = "down" ∨ k = "j")
    (hv : V2.isListScreen m.view = true) (hb : V2.cursorInBounds m) :
    ∃ m', V2.applyKeys m ks = some m' ∧ m'.view = m.view ∧ V2.cursorInBounds m' := by
  induction ks generalizing m with
  | nil => exact ⟨m, rfl, rfl, hb⟩
  | cons k ks ih =>
    obtain ⟨c, hstep, hbc⟩ := V2.udStepTwo m k (hks k (by simp)) hv hb
    obtain ⟨m', hm', hview, hb'⟩ :=
      ih { m with cursor := c } (fun k hk => hks k (by simp [hk])) hv hbc
    exact ⟨m', by simpa [V2.applyKeys, hstep] using hm', hview, hb'⟩

/-- Every output the `sort.Slice` contract admits has its first five
entries sorted non-increasingly, drawn from the input, and dominating all
dropped entries. -/
theorem Agg.sortSliceSpec_take_props {α : Type} (key : α → Int)
    (input out : List α) (h : Agg.SortSliceSpec key input out) :
    (out.take 5).Pairwise (fun a b => key b ≤ key a) ∧
    (∀ x ∈ out.take 5, x ∈ input) ∧
    (∀ x ∈ out.take 5, ∀ y ∈ out.drop 5, key y ≤ key x) := by
  obtain ⟨hp, hs⟩ := h
  refine ⟨List.Pairwise.sublist (List.take_sublist _ _) hs, ?_, ?_⟩
  · intro x hx
    exact hp.mem_iff.mpr (List.mem_of_mem_take hx)
  · rw [← List.take_append_drop 5 out] at hs
    exact fun x hx y hy => ((List.pairwise_append.mp hs).2.2) x hx y hy

/-! ## Claim theorems. -/

/-- C1 (counterexample): processing a fetch response does **not**
reschedule the refresh timer.  In variant 1, after a tick on the node
screen issues its fetch, the `nodesMsg` handler returns a nil command, so
the tick chain ends there; in variant 2 the `errMsg` handler likewise
returns a nil command.  This falsifies the claim that the timer is
rescheduled after every response (success or error) so that ticks recur
indefinitely. -/
theorem C1_response_drops_timer_counterexample :
    (V1.update { V1.base with view := .nodes } .tick =
        some ({ V1.base with view := .nodes }, Cmd.getNodes)) ∧
    (V1.update { V1.base with view := .nodes } (.nodesMsg [] []) =
        some ({ V1.base with view := .nodes }, Cmd.none)) ∧
    (V2.update { V2.base with view := .nodes } (.errMsg "connection refused") =
        some ({ V2.base with view := .nodes, err := some "connection refused" },
              Cmd.none)) ∧
    Cmd.none ≠ Cmd.doTick := by
  refine ⟨by decide, by decide, by decide, by decide⟩

/-- C1 (amended): every tick leaves the model unchanged and returns exactly
one command — the single fetch the current screen owns, or `doTick` (and
never both) for screens with no owned fetch, so at most one fetch per tick
is outstanding and the timer is not rescheduled while a fetch is in
flight.  However, the timer is re-armed only by variant 2's successful
list responses: variant 1's response handlers and variant 2's error
handler return a nil command, so the tick chain does not recur past those
points. -/
theorem C1_refresh_loop_amended :
    (∀ m : V1.Model, V1.update m .tick = some (m, V1.tickCmd m.view m.selectedNamespace)) ∧
    (∀ (v : V1.ViewState) (ns : String),
        V1.tickCmd v ns = Cmd.doTick ∨
          (isFetchCmd (V1.tickCmd v ns) = true ∧ V1.tickCmd v ns ≠ Cmd.doTick)) ∧
    (∀ ns : String,
        V1.tickCmd .resourceMenu ns = Cmd.doTick ∧ V1.tickCmd .details ns = Cmd.doTick ∧
        V1.tickCmd .confirmDelete ns = Cmd.doTick ∧ V1.tickCmd .scaling ns = Cmd.doTick ∧
        V1.tickCmd .help ns = Cmd.doTick ∧ V1.tickCmd .logs ns = Cmd.doTick ∧
        V1.tickCmd .yaml ns = Cmd.doTick) ∧
    (∀ (m : V1.Model) nodes mets,
        (V1.update m (.nodesMsg nodes mets)).map (·.2) = some Cmd.none) ∧
    (∀ (m : V1.Model) ps mets,
        (V1.update m (.podsMsg ps mets)).map (·.2) = some Cmd.none) ∧
    (∀ (m : V1.Model) e, (V1.update m (.errMsg e)).map (·.2) = some Cmd.none) ∧
    (∀ m : V2.Model, (V2.tickDispatch m).1 = m ∧
        ((V2.tickDispatch m).2 = Cmd.doTick ∨
          (isFetchCmd (V2.tickDispatch m).2 = true ∧ (V2.tickDispatch m).2 ≠ Cmd.doTick))) ∧
    (∀ m : V2.Model, V2.tickDispatch { m with view := .resourceMenu } =
        ({ m with view := .resourceMenu }, Cmd.doTick)) ∧
    (∀ m : V2.Model, V2.tickDispatch { m with view := .confirmDelete } =
        ({ m with view := .confirmDelete }, Cmd.doTick)) ∧
    (∀ (m : V2.Model) nodes mets,
        (V2.update m (.nodesMsg nodes mets)).map (·.2) = some Cmd.doTick) ∧
    (∀ (m : V2.Model) ps mets,
        (V2.update m (.podsMsg ps mets)).map (·.2) = some Cmd.doTick) ∧
    (∀ (m : V2.Model) e, (V2.update m (.errMsg e)).map (·.2) = some Cmd.none) := by
  refine ⟨?_, ?_, fun ns => ⟨rfl, rfl, rfl, rfl, rfl, rfl, rfl⟩,
          fun m nodes mets => rfl, fun m ps mets => rfl, fun m e => rfl,
          ?_, fun m => rfl, fun m => rfl, ?_, ?_, fun m e => rfl⟩
  · intro m; cases h : m.view <;> simp [V1.update, V1.tickCmd, h]
  · intro v ns; cases v <;> simp [V1.tickCmd, isFetchCmd]
  · intro m; cases h : m.view <;> simp [V2.tickDispatch, h, isFetchCmd]
  · intro m nodes mets
    simp only [V2.update]
    split <;> rfl
  · intro m ps mets
    simp only [V2.update]
    split <;> rfl

/-- C2: a late pod-list response is **merged**, not discarded.  With the
namespace filter already switched to kube-system and its fresh pod list in
place, processing a `podsMsg` carrying the pod list of the abandoned
context replaces the snapshot with the stale list — there is no staleness
check at merge time in either variant. -/
theorem C2_late_response_merged :
    (V2.update { V2.base with
        view := .pods, selectedNamespace := "kube-system",
        pods := [Pod.mk "kube-system" "fresh-pod"] }
        (.podsMsg [Pod.mk "default" "stale-pod"] []) =
      some ({ V2.base with
        view := .pods, selectedNamespace := "kube-system",
        pods := [Pod.mk "default" "stale-pod"] }, Cmd.doTick)) ∧
    (V1.update { V1.base with
        view := .pods, selectedNamespace := "kube-system",
        pods := [Pod.mk "kube-system" "fresh-pod"] }
        (.podsMsg [Pod.mk "default" "stale-pod"] []) =
      some ({ V1.base with
        view := .pods, selectedNamespace := "kube-system",
        pods := [Pod.mk "default" "stale-pod"] }, Cmd.none)) ∧
    [Pod.mk "default" "stale-pod"] ≠ [Pod.mk "kube-system" "fresh-pod"] := by
  refine ⟨by decide, by decide, by decide⟩

/-- C3 (counterexample): variant 1's fetch-completion handlers do not
re-clamp the cursor.  With the cursor at 2 on a three-pod list, a refresh
that shrinks the list to one pod leaves the cursor at 2 — outside
`[0, len-1]`. -/
theorem C3_refresh_cursor_unclamped_counterexample :
    (V1.update { V1.base with
        view := .pods, cursor := 2,
        pods := [Pod.mk "d" "a", Pod.mk "d" "b", Pod.mk "d" "c"] }
        (.podsMsg [Pod.mk "d" "a"] []) =
      some ({ V1.base with
        view := .pods, cursor := 2, pods := [Pod.mk "d" "a"] }, Cmd.none)) ∧
    ¬ V1.cursorInBounds { V1.base with
        view := .pods, cursor := 2, pods := [Pod.mk "d" "a"] } := by
  constructor
  · decide
  · intro h
    rcases h with ⟨h0, h1⟩
    simp [V1.listLen] at h1

/-- C3 (amended): in terms of keypresses the claim holds in both variants —
any sequence of up/down keys on a list screen keeps the cursor inside
`[0, len-1]` (pinned to 0 on an empty list) and never negative.  After a
data refresh, only variant 2 restores the invariant: its node/pod
handlers reset an out-of-range cursor to 0 and its other list handlers
reset the cursor to 0 outright, while variant 1's refresh handlers leave
the cursor untouched (see the counterexample). -/
theorem C3_cursor_bounds_amended :
    (∀ (ks : List String) (m : V1.Model),
        (∀ k ∈ ks, k = "up" ∨ k = "k" ∨ k = "down" ∨ k = "j") →
        V1.isListScreen m.view = true → V1.cursorInBounds m →
        ∃ m', V1.applyKeys m ks = some m' ∧ m'.view = m.view ∧ V1.cursorInBounds m') ∧
    (∀ (ks : List String) (m : V2.Model),
        (∀ k ∈ ks, k = "up" ∨ k = "down" ∨ k = "j") →
        V2.isListScreen m.view = true → V2.cursorInBounds m →
        ∃ m', V2.applyKeys m ks = some m' ∧ m'.view = m.view ∧ V2.cursorInBounds m') ∧
    (∀ (m : V2.Model) ps mets, 0 ≤ m.cursor →
        ∃ m', V2.update m (.podsMsg ps mets) = some (m', Cmd.doTick) ∧ m'.pods = ps ∧
          0 ≤ m'.cursor ∧ (m'.cursor < (ps.length : Int) ∨ m'.cursor = 0)) ∧
    (∀ (m : V2.Model) nodes mets, 0 ≤ m.cursor →
        ∃ m', V2.update m (.nodesMsg nodes mets) = some (m', Cmd.doTick) ∧ m'.nodes = nodes ∧
          0 ≤ m'.cursor ∧ (m'.cursor < (nodes.length : Int) ∨ m'.cursor = 0)) ∧
    (∀ (m : V2.Model) xs, V2.update m (.pvcsMsg xs) =
        some ({ m with pvcs := xs, cursor := 0 }, Cmd.doTick)) ∧
    (∀ (m : V2.Model) xs, V2.update m (.deploymentsMsg xs) =
        some ({ m with deployments := xs, cursor := 0 }, Cmd.doTick)) ∧
    (∀ (m : V2.Model) xs, V2.update m (.servicesMsg xs) =
        some ({ m with services := xs, cursor := 0 }, Cmd.doTick)) ∧
    (∀ (m : V2.Model) xs, V2.update m (.eventsMsg xs) =
        some ({ m with events := xs, cursor := 0 }, Cmd.doTick)) := by
  refine ⟨V1.udFoldOne, V2.udFoldTwo, ?_, ?_,
          fun m xs => rfl, fun m xs => rfl, fun m xs => rfl, fun m xs => rfl⟩
  · intro m ps mets h0
    by_cases hc : m.cursor ≥ (ps.length : Int)
    · refine ⟨{ m with pods := ps, podMetrics := mets, cursor := 0 }, ?_, rfl, ?_, ?_⟩
      · simp [V2.update, hc]
      · simp
      · right; rfl
    · refine ⟨{ m with pods := ps, podMetrics := mets }, ?_, rfl, ?_, ?_⟩
      · simp [V2.update, hc]
      · simpa using h0
      · left; simpa using (by omega : m.cursor < (ps.length : Int))
  · intro m nodes mets h0
    by_cases hc : m.cursor ≥ (nodes.length : Int)
    · refine ⟨{ m with nodes := nodes, nodeMetrics := mets, cursor := 0 }, ?_, rfl, ?_, ?_⟩
      · simp [V2.update, hc]
      · simp
      · right; rfl
    · refine ⟨{ m with nodes := nodes, nodeMetrics := mets }, ?_, rfl, ?_, ?_⟩
      · simp [V2.update, hc]
      · simpa using h0
      · left; simpa using (by omega : m.cursor < (nodes.length : Int))

/-- C3 (witness): a concrete down-down-up run on a two-pod list keeps the
screen and the bounds invariant. -/
theorem C3_cursor_bounds_witness :
    ∃ m', V1.applyKeys { V1.base with
        view := .pods, pods := [Pod.mk "d" "a", Pod.mk "d" "b"] }
        ["down", "down", "up"] = some m' ∧
      m'.view = { V1.base with
        view := .pods, pods := [Pod.mk "d" "a", Pod.mk "d" "b"] }.view ∧
      V1.cursorInBounds m' :=
  C3_cursor_bounds_amended.1 ["down", "down", "up"]
    { V1.base with view := .pods, pods := [Pod.mk "d" "a", Pod.mk "d" "b"] }
    (by decide) (by decide) ⟨by decide, Or.inl (by decide)⟩

/-- C4: processing a fetch error leaves every snapshot (and everything else
except the error field) unchanged and records only the error, in both
variants; a subsequent successful fetch replaces the owned snapshot
entirely with the message's list — the new snapshot is exactly the fetched
list, independent of the old one (no merge). -/
theorem C4_error_atomic_replacement_wholesale :
    (∀ (m : V1.Model) (e : String),
        V1.update m (.errMsg e) = some ({ m with err := some e }, Cmd.none)) ∧
    (∀ (m : V2.Model) (e : String),
        V2.update m (.errMsg e) = some ({ m with err := some e }, Cmd.none)) ∧
    (∀ (m : V1.Model) ps mets,
        V1.update m (.podsMsg ps mets) =
          some ({ m with pods := ps, podMetrics := mets }, Cmd.none)) ∧
    (∀ (m : V1.Model) nodes mets,
        V1.update m (.nodesMsg nodes mets) =
          some ({ m with nodes := nodes, nodeMetrics := mets }, Cmd.none)) ∧
    (∀ (m : V1.Model) xs,
        V1.update m (.deploymentsMsg xs) =
          some ({ m with deployments := xs }, Cmd.none)) ∧
    (∀ (m : V2.Model) ps mets, ∃ c,
        V2.update m (.podsMsg ps mets) =
          some ({ m with pods := ps, podMetrics := mets, cursor := c }, Cmd.doTick)) ∧
    (∀ (m : V2.Model) nodes mets, ∃ c,
        V2.update m (.nodesMsg nodes mets) =
          some ({ m with nodes := nodes, nodeMetrics := mets, cursor := c }, Cmd.doTick)) ∧
    (∀ (m : V2.Model) xs,
        V2.update m (.deploymentsMsg xs) =
          some ({ m with deployments := xs, cursor := 0 }, Cmd.doTick)) := by
  refine ⟨fun m e => rfl, fun m e => rfl, fun m ps mets => rfl,
          fun m nodes mets => rfl, fun m xs => rfl, ?_, ?_, fun m xs => rfl⟩
  · intro m ps mets
    by_cases h : m.cursor ≥ (ps.length : Int)
    · exact ⟨0, by simp [V2.update, h]⟩
    · exact ⟨m.cursor, by simp [V2.update, h]⟩
  · intro m nodes mets
    by_cases h : m.cursor ≥ (nodes.length : Int)
    · exact ⟨0, by simp [V2.update, h]⟩
    · exact ⟨m.cursor, by simp [V2.update, h]⟩

/-- C5 (counterexample): the error value is **never** cleared — in
particular a subsequent successful fetch does not clear it.  After an
error is recorded, processing a successful pod-list response leaves the
error in place in both variants. -/
theorem C5_error_never_cleared_counterexample :
    (V2.update { V2.base with view := .pods, err := some "boom" } (.podsMsg [] []) =
        some ({ V2.base with view := .pods, err := some "boom" }, Cmd.doTick)) ∧
    (V1.update { V1.base with view := .pods, err := some "boom" } (.podsMsg [] []) =
        some ({ V1.base with view := .pods, err := some "boom" }, Cmd.none)) ∧
    (some "boom" : Option String) ≠ Option.none := by
  refine ⟨by decide, by decide, by decide⟩

/-- C5 (amended): a fetch or mutation failure sets a persistent error
value, keeps the current screen, and the error is rendered as a banner in
place of the whole page; it does not clear on the next tick — but it is
also never cleared afterwards: every data message, including every
subsequent successful fetch, leaves the error value exactly as it was. -/
theorem C5_error_banner_amended :
    (∀ (m : V1.Model) (e : String),
        V1.update m (.errMsg e) = some ({ m with err := some e }, Cmd.none)) ∧
    (∀ (m : V2.Model) (e : String),
        V2.update m (.errMsg e) = some ({ m with err := some e }, Cmd.none)) ∧
    (∀ (m : V1.Model) (e : String),
        V1.View { m with err := some e } = some (.errorBanner ("Error: " ++ e))) ∧
    (∀ (m : V2.Model) (e : String),
        V2.View { m with err := some e, ready := true } =
          some (.errorBanner ("Error: " ++ e))) ∧
    (∀ (m : V1.Model) (msg : V1.Msg), V1.isDataMsg msg = true →
        (V1.update m msg).map (fun r => r.1.err) = some m.err) ∧
    (∀ (m : V2.Model) (msg : V2.Msg), V2.isDataMsg msg = true →
        (V2.update m msg).map (fun r => r.1.err) = some m.err) := by
  refine ⟨fun m e => rfl, fun m e => rfl, fun m e => rfl, fun m e => rfl, ?_, ?_⟩
  · intro m msg h
    cases msg <;> simp_all [V1.isDataMsg, V1.update, V1.setView]
    · cases hv : m.view <;> simp [hv]
    · cases hv : m.previousView <;> simp [hv]
  · intro m msg h
    cases msg <;> simp_all [V2.isDataMsg, V2.update, V2.tickDispatch]
    · cases hv : m.view <;> simp [hv]
    · split <;> rfl
    · split <;> rfl

/-- C5 (witness): processing a concrete successful pod fetch leaves the
base model's error value unchanged. -/
theorem C5_error_banner_witness :
    (V2.update V2.base (.podsMsg [] [])).map (fun r => r.1.err) = some V2.base.err :=
  C5_error_banner_amended.2.2.2.2.2 V2.base (.podsMsg [] []) (by decide)

/-- C6 (counterexample): variant 1's `formatPercentage(50, 200)` returns
the two-decimal string, not the claimed integer string. -/
theorem C6_two_decimals_counterexample :
    V1.formatPercentage 50 200 = "25.00" ∧ V1.formatPercentage 50 200 ≠ "25" := by
  refine ⟨by decide, by decide⟩

/-- C6 (amended): both variants return the literal `"0"` whenever the
total is 0 (for every numerator, so the division can never trap), and
variant 2 returns the decimal string of `val/total*100` rounded to an
integer — in particular `"25"` on `(50, 200)` — while variant 1 formats
the same value with **two decimal places**, e.g. `"25.00"` on
`(50, 200)`. -/
theorem C6_formatPercentage_amended :
    (∀ x : Int, V1.formatPercentage x 0 = "0") ∧
    (∀ x : Int, V2.formatPercentage x 0 = "0") ∧
    V2.formatPercentage 50 200 = "25" ∧
    (∀ v t : Int, t ≠ 0 →
        V2.formatPercentage v t = toString (roundHalfEvenDiv (v * 100) t)) ∧
    (∀ u t : Int, t ≠ 0 → V1.formatPercentage u t = fmtF2frac (u * 100) t) ∧
    V1.formatPercentage 50 200 = "25.00" := by
  refine ⟨fun x => rfl, fun x => rfl, by decide, ?_, ?_, by decide⟩
  · intro v t ht
    simp [V2.formatPercentage, fmtF0frac, ht]
  · intro u t ht
    simp [V1.formatPercentage, ht]

/-- C6 (witness): the amended rounding description evaluated at a
non-trivial point, `7/3*100` rounds to 233. -/
theorem C6_formatPercentage_witness :
    V2.formatPercentage 7 3 = toString (roundHalfEvenDiv 700 3) :=
  C6_formatPercentage_amended.2.2.2.1 7 3 (by decide)

/-- C7 (counterexample): tie order is **not** guaranteed.  Both variants
rank with `sort.Slice`, whose contract guarantees only a permutation
sorted by the comparator; on two pods with equal CPU usage the reversed
order also satisfies that contract, yet differs from the
ties-in-original-order ranking the claim asserts — so the "stable sort,
ties broken by original list order" property does not hold of the code. -/
theorem C7_tie_order_counterexample :
    ¬ (∀ out, Agg.SortSliceSpec Agg.cpuKey
          (Agg.podsWithMetrics [Pod.mk "ns" "aaa", Pod.mk "ns" "bbb"]
            [("aaa", PodMetrics.mk "aaa" [ContainerMetrics.mk 5 7]),
             ("bbb", PodMetrics.mk "bbb" [ContainerMetrics.mk 5 7])]) out →
        Agg.topFive out =
          Agg.topFive (Agg.stableSortDesc Agg.cpuKey
            (Agg.podsWithMetrics [Pod.mk "ns" "aaa", Pod.mk "ns" "bbb"]
              [("aaa", PodMetrics.mk "aaa" [ContainerMetrics.mk 5 7]),
               ("bbb", PodMetrics.mk "bbb" [ContainerMetrics.mk 5 7])]))) := by
  intro hc
  have h := hc [(Pod.mk "ns" "bbb", 5, 7), (Pod.mk "ns" "aaa", 5, 7)]
    (by constructor
        · decide
        · decide)
  exact absurd h (by decide)

/-- C7 (amended): under the `sort.Slice` contract the code actually uses,
every admissible ranking is sorted descending by the relevant usage key,
contains only objects present in the metrics index (pods or nodes absent
from the index are excluded before sorting), and its five entries dominate
every entry it drops; the relative order of equal-usage entries, and hence
bit-for-bit determinism of tie order across runs, is not guaranteed by
that contract (see the counterexample). -/
theorem C7_topN_ranking_amended :
    (∀ (pods : List Pod) (pmIdx : List (String × PodMetrics)) out,
        Agg.SortSliceSpec Agg.cpuKey (Agg.podsWithMetrics pods pmIdx) out →
          ((out.take 5).Pairwise (fun a b => Agg.cpuKey b ≤ Agg.cpuKey a) ∧
           (∀ x ∈ out.take 5, x ∈ Agg.podsWithMetrics pods pmIdx) ∧
           (∀ x ∈ out.take 5, ∀ y ∈ out.drop 5, Agg.cpuKey y ≤ Agg.cpuKey x))) ∧
    (∀ (pods : List Pod) (pmIdx : List (String × PodMetrics)) out,
        Agg.SortSliceSpec Agg.memKey (Agg.podsWithMetrics pods pmIdx) out →
          ((out.take 5).Pairwise (fun a b => Agg.memKey b ≤ Agg.memKey a) ∧
           (∀ x ∈ out.take 5, x ∈ Agg.podsWithMetrics pods pmIdx) ∧
           (∀ x ∈ out.take 5, ∀ y ∈ out.drop 5, Agg.memKey y ≤ Agg.memKey x))) ∧
    (∀ (nodes : List Node) (nmIdx : List (String × NodeMetrics)) out,
        Agg.SortSliceSpec Agg.cpuKey (Agg.nodesWithMetrics nodes nmIdx) out →
          ((out.take 5).Pairwise (fun a b => Agg.cpuKey b ≤ Agg.cpuKey a) ∧
           (∀ x ∈ out.take 5, x ∈ Agg.nodesWithMetrics nodes nmIdx) ∧
           (∀ x ∈ out.take 5, ∀ y ∈ out.drop 5, Agg.cpuKey y ≤ Agg.cpuKey x))) ∧
    (∀ (nodes : List Node) (nmIdx : List (String × NodeMetrics)) out,
        Agg.SortSliceSpec Agg.memKey (Agg.nodesWithMetrics nodes nmIdx) out →
          ((out.take 5).Pairwise (fun a b => Agg.memKey b ≤ Agg.memKey a) ∧
           (∀ x ∈ out.take 5, x ∈ Agg.nodesWithMetrics nodes nmIdx) ∧
           (∀ x ∈ out.take 5, ∀ y ∈ out.drop 5, Agg.memKey y ≤ Agg.memKey x))) :=
  ⟨fun _ _ out h => Agg.sortSliceSpec_take_props Agg.cpuKey _ out h,
   fun _ _ out h => Agg.sortSliceSpec_take_props Agg.memKey _ out h,
   fun _ _ out h => Agg.sortSliceSpec_take_props Agg.cpuKey _ out h,
   fun _ _ out h => Agg.sortSliceSpec_take_props Agg.memKey _ out h⟩

/-- C7 (witness): the amended ranking property evaluated on a concrete
one-pod input with its (trivially sorted) admissible output. -/
theorem C7_topN_ranking_witness :
    (([(Pod.mk "ns" "aaa", (5 : Int), (7 : Int))].take 5).Pairwise
        (fun a b => Agg.cpuKey b ≤ Agg.cpuKey a) ∧
     (∀ x ∈ [(Pod.mk "ns" "aaa", (5 : Int), (7 : Int))].take 5,
        x ∈ Agg.podsWithMetrics [Pod.mk "ns" "aaa"]
              [("aaa", PodMetrics.mk "aaa" [ContainerMetrics.mk 5 7])]) ∧
     (∀ x ∈ [(Pod.mk "ns" "aaa", (5 : Int), (7 : Int))].take 5,
        ∀ y ∈ [(Pod.mk "ns" "aaa", (5 : Int), (7 : Int))].drop 5,
          Agg.cpuKey y ≤ Agg.cpuKey x)) :=
  C7_topN_ranking_amended.1 [Pod.mk "ns" "aaa"]
    [("aaa", PodMetrics.mk "aaa" [ContainerMetrics.mk 5 7])]
    [(Pod.mk "ns" "aaa", 5, 7)]
    (by constructor
        · decide
        · decide)

/-- C8 (counterexample): in variant 1 the namespace picker does not return
to `previousScreen` and does not re-fetch: selecting kube-system while
`previousView` is the pod list goes to the resource-type menu with a nil
command. -/
theorem C8_picker_returns_to_menu_counterexample :
    V1.update { V1.base with
      view := .namespaces, previousView := .pods, cursor := 1,
      namespaces := [Namespace.mk "kube-system"] } (.key "enter") =
      some ({ V1.base with
        view := .resourceMenu, previousView := .namespaces, cursor := 0,
        namespaces := [Namespace.mk "kube-system"],
        selectedNamespace := "kube-system" }, Cmd.none) ∧
    V1.ViewState.resourceMenu ≠ V1.ViewState.pods ∧
    Cmd.none ≠ Cmd.getPods "kube-system" := by
  refine ⟨by decide, by decide, by decide⟩

/-- C8 (amended): in variant 2 the claim holds — selecting a picker entry
sets `selectedNamespace` (the all-namespaces filter for the first entry),
returns to `previousView`, and immediately re-issues that screen's fetch
with the new filter; in variant 1 selection sets the filter but goes to
the resource-type menu without issuing any fetch.  In both variants every
subsequent pod-list tick fetch passes `selectedNamespace`, and the
rendered header reflects the selected namespace. -/
theorem C8_namespace_picker_amended :
    (∀ (m : V2.Model) (ns : Namespace) (rest : List Namespace),
        V2.update { m with
          view := .namespaces, previousView := .pods, cursor := 1,
          namespaces := ns :: rest } (.key "enter") =
          some ({ m with
            view := .pods, previousView := .pods, cursor := 1,
            namespaces := ns :: rest, selectedNamespace := ns.name },
            Cmd.getPods ns.name)) ∧
    (∀ (m : V2.Model),
        V2.update { m with
          view := .namespaces, previousView := .pods, cursor := 0 } (.key "enter") =
          some ({ m with
            view := .pods, previousView := .pods, cursor := 0,
            selectedNamespace := "" }, Cmd.getPods "")) ∧
    (∀ (m : V1.Model) (ns : Namespace) (rest : List Namespace),
        V1.update { m with
          view := .namespaces, cursor := 1, namespaces := ns :: rest } (.key "enter") =
          some ({ m with
            view := .resourceMenu, previousView := .namespaces, cursor := 0,
            namespaces := ns :: rest, selectedNamespace := ns.name }, Cmd.none)) ∧
    (∀ m : V1.Model, V1.update { m with view := .pods } .tick =
        some ({ m with view := .pods }, Cmd.getPods m.selectedNamespace)) ∧
    (∀ m : V2.Model, V2.update { m with view := .pods } .tick =
        some ({ m with view := .pods }, Cmd.getPods m.selectedNamespace)) ∧
    (∀ m : V2.Model,
        V2.headerTitle { m with view := .pods, selectedNamespace := "kube-system" } =
          some "Pods in kube-system") ∧
    (∀ m : V1.Model,
        V1.renderHeader { m with selectedNamespace := "kube-system" } =
          "kubeview | Namespace: kube-system | Press " ++ sq ++ "?" ++ sq ++ " for help") :=
  ⟨fun m ns rest => rfl, fun m => rfl, fun m ns rest => rfl,
   fun m => rfl, fun m => rfl, fun m => rfl, fun m => rfl⟩

/-- C9: in variant 1 (where transitions go through `setView`), pressing
`X` on the pod list resets the cursor to 0 while entering the
delete-confirmation screen; consequently the confirmation prompt names
`pods[0]` and answering `y` issues the delete call for `pods[0]` — not
for the pod that was selected when `X` was pressed. -/
theorem C9_delete_targets_first_pod (m : V1.Model) (pods : List Pod) (c : Int)
    (p0 pc : Pod) (hp0 : goIndex pods 0 = some p0) (hpc : goIndex pods c = some pc)
    (hname : p0.name ≠ pc.name) :
    ∃ mX,
      V1.update { m with
        view := .pods, cursor := c, pods := pods,
        err := Option.none, ready := true } (.key "X") = some (mX, Cmd.none) ∧
      mX.view = .confirmDelete ∧ mX.cursor = 0 ∧
      V1.View mX = some (.page (V1.renderHeader mX)
        (.confirmDelete p0.name) (V1.renderFooter mX)) ∧
      V1.update mX (.key "y") = some (mX, Cmd.deletePod p0.ns p0.name) ∧
      Cmd.deletePod p0.ns p0.name ≠ Cmd.deletePod pc.ns pc.name := by
  refine ⟨{ m with
    view := .confirmDelete, previousView := .pods, cursor := 0, pods := pods,
    err := Option.none, ready := true }, ?_, rfl, rfl, ?_, ?_, ?_⟩
  · rfl
  · simp [V1.View, V1.pageContent, hp0, V1.renderHeader, V1.renderFooter]
  · simp [V1.update, V1.keyUpdate, hp0]
  · simp [hname]

/-- C9 (witness): with the cursor on the second of two pods, `X` then `y`
deletes pod-a (the first pod), not pod-b. -/
theorem C9_delete_targets_first_pod_witness :
    ∃ mX,
      V1.update { V1.base with
        view := .pods, cursor := 1,
        pods := [Pod.mk "default" "pod-a", Pod.mk "default" "pod-b"],
        err := Option.none, ready := true } (.key "X") = some (mX, Cmd.none) ∧
      mX.view = .confirmDelete ∧ mX.cursor = 0 ∧
      V1.View mX = some (.page (V1.renderHeader mX)
        (.confirmDelete (Pod.mk "default" "pod-a").name) (V1.renderFooter mX)) ∧
      V1.update mX (.key "y") =
        some (mX, Cmd.deletePod (Pod.mk "default" "pod-a").ns
                    (Pod.mk "default" "pod-a").name) ∧
      Cmd.deletePod (Pod.mk "default" "pod-a").ns (Pod.mk "default" "pod-a").name ≠
        Cmd.deletePod (Pod.mk "default" "pod-b").ns (Pod.mk "default" "pod-b").name :=
  C9_delete_targets_first_pod V1.base
    [Pod.mk "default" "pod-a", Pod.mk "default" "pod-b"] 1
    (Pod.mk "default" "pod-a") (Pod.mk "default" "pod-b")
    (by decide) (by decide) (by decide)

/-- C10: pressing `d` on a variant-1 list screen with an empty snapshot
indexes the empty list at the cursor with no length guard, so the handler
falls into the out-of-bounds branch (a runtime panic, `none` in this
model), whereas `enter` checks `len(list) > cursor` first and is a no-op
on the same model. -/
theorem C10_details_key_empty_list_panics :
    ∀ m : V1.Model,
      V1.update { m with view := .pods, pods := [], cursor := 0 } (.key "d") =
        Option.none ∧
      V1.update { m with view := .pods, pods := [], cursor := 0 } (.key "enter") =
        some ({ m with view := .pods, pods := [], cursor := 0 }, Cmd.none) := by
  intro m
  exact ⟨rfl, rfl⟩

end Kubeview
